import Mathlib

/-! # gst-droid camera source: state machine, port delivery loop, pad handlers, quirks

A shallow embedding of `gst/droidcamsrc/gstdroidcamsrc.c` and of the quirk table of
`gst/droidcamsrc/gstdroidcamsrcquirks.c`.

* Pointers are `Option`s (`none` is `NULL`).
* Calls into collaborators that live outside the file (the camera HAL, the device
  handle `gstdroidcamsrcdev`, the base element class, the pad API) are recorded in a
  call log, and what they return is read from an environment record.
* Debug logging (`GST_DEBUG_OBJECT`, `GST_ERROR_OBJECT`, ...) has no effect on the
  state and is left out.
-/

namespace DroidCamSrc

/-! ## Camera HAL interface -/

/-- The part of `struct camera_info` the element reads. -/
structure camera_info where
  facing : Int
  orientation : Int
  deriving DecidableEq, Repr

/-- The part of `camera_module_t` the element reads: the module API version and the two
enumeration entry points. `get_camera_info x` is what the HAL leaves in the caller's
`struct camera_info` when asked about index `x`. -/
structure camera_module_t where
  module_api_version : Nat
  get_number_of_cameras : Int
  get_camera_info : Nat → camera_info

/-- Constants of headers that are not part of the translated sources: the facing values of
the camera HAL and the members of `GstDroidCamSrcCamDirection` (gstdroidcamsrc.h). -/
structure Header where
  CAMERA_FACING_BACK : Int
  CAMERA_FACING_FRONT : Int
  GST_DROID_CAM_SRC_DIRECTION_BACK : Int
  GST_DROID_CAM_SRC_DIRECTION_FRONT : Int
  CAMERA_MODULE_API_VERSION_1_0 : Nat
  deriving DecidableEq, Repr

/-- The values the Android camera HAL gives the facing constants (back 0, front 1) and
module API version 1.0 (0x0100), with the direction enumeration following the facing
values, as `target->direction = info.facing` in `gst_droidcamsrc_fill_info` needs. -/
def androidHeader : Header :=
  { CAMERA_FACING_BACK := 0
    CAMERA_FACING_FRONT := 1
    GST_DROID_CAM_SRC_DIRECTION_BACK := 0
    GST_DROID_CAM_SRC_DIRECTION_FRONT := 1
    CAMERA_MODULE_API_VERSION_1_0 := 0x100 }

/-- Modelled from the spec: `MAX_CAMERAS` is defined in gstdroidcamsrc.h, which is not
among the sources; the Camera Info Table of the spec has two slots (front/back), and
`gst_droid_cam_src_get_hw` writes `info[0]` and `info[1]`. -/
def MAX_CAMERAS : Nat := 2

/-! ## Element data model -/

/-- One slot of the camera info table, `GstDroidCamSrcCamInfo`. -/
structure GstDroidCamSrcCamInfo where
  num : Int
  direction : Int
  orientation : Int
  deriving DecidableEq, Repr

/-- The logical camera selector, `GstDroidCamSrcCameraDevice`. -/
inductive GstDroidCamSrcCameraDevice where
  | PRIMARY
  | SECONDARY
  deriving DecidableEq, Repr

/-- The three output ports of the element. -/
inductive PadName where
  | vfsrc
  | imgsrc
  | vidsrc
  deriving DecidableEq, Repr

/-- The device handle as far as this file touches it: the delivery target of its buffer
pool (`dev->pool->pad`). -/
structure GstDroidCamSrcDev where
  pool_pad : Option PadName
  deriving DecidableEq, Repr

inductive GstStateChange where
  | NULL_TO_READY
  | READY_TO_PAUSED
  | PAUSED_TO_PLAYING
  | PLAYING_TO_PAUSED
  | PAUSED_TO_READY
  | READY_TO_NULL
  deriving DecidableEq, Repr

inductive GstStateChangeReturn where
  | FAILURE
  | SUCCESS
  | ASYNC
  | NO_PREROLL
  deriving DecidableEq, Repr

/-- Calls the state machine makes into its collaborators, in the order they are made. -/
inductive Call where
  | hw_get_module
  | dev_new
  | dev_open (id : String)
  | dev_init
  | dev_start
  | dev_stop
  | dev_deinit
  | dev_close
  | dev_destroy
  | notify (property : String)
  | parent_change_state (transition : GstStateChange)
  deriving DecidableEq, Repr

/-- The fields of `GstDroidCamSrc` the state machine reads or writes, and the log of
collaborator calls made so far. -/
structure GstDroidCamSrc where
  hw : Option camera_module_t
  dev : Option GstDroidCamSrcDev
  camera_device : GstDroidCamSrcCameraDevice
  info : Nat → GstDroidCamSrcCamInfo
  ready_for_capture : Bool
  log : List Call

/-- What the collaborators answer. `hw_get_module = none` stands for a negative error
code, in which case the module pointer is left as it was. -/
structure Env where
  hw_get_module : Option camera_module_t
  dev_open : String → Bool
  dev_init : Bool
  dev_start : Bool
  parent_change_state : GstStateChange → GstStateChangeReturn

/-- The element as `gst_droidcamsrc_init` leaves it. The instance memory is zero-filled
before `init` runs, so the info table, which `init` does not touch, holds zeros. -/
def gst_droidcamsrc_init : GstDroidCamSrc :=
  { hw := none
    dev := none
    camera_device := GstDroidCamSrcCameraDevice.PRIMARY
    info := fun _ => { num := 0, direction := 0, orientation := 0 }
    ready_for_capture := true
    log := [] }

/-! ## Hardware acquisition and camera lookup -/

/-- The loop of `gst_droidcamsrc_fill_info` over the indices still to visit: the first
index whose HAL info has the wanted facing, with that info. -/
def fill_info_loop (hw : camera_module_t) (facing : Int) :
    List Nat → Option (Nat × camera_info)
  | [] => none
  | x :: xs =>
    let info := hw.get_camera_info x
    if info.facing = facing then some (x, info) else fill_info_loop hw facing xs

/-- Source function `gst_droidcamsrc_fill_info`: `hw` is the module `src->hw` points to,
`target` the slot passed by reference; the result is the return value and the slot
afterwards. -/
def gst_droidcamsrc_fill_info (hw : camera_module_t) (target : GstDroidCamSrcCamInfo)
    (facing : Int) : Bool × GstDroidCamSrcCamInfo :=
  match fill_info_loop hw facing (List.range MAX_CAMERAS) with
  | some (x, info) =>
    (true, { num := (x : Int), direction := info.facing,
             orientation := Int.tdiv info.orientation 90 })
  | none => (false, target)

/-- Assignment to `src->info[i].num`. -/
def set_info_num (info : Nat → GstDroidCamSrcCamInfo) (i : Nat) (n : Int) :
    Nat → GstDroidCamSrcCamInfo :=
  Function.update info i { info i with num := n }

/-- Source function `gst_droid_cam_src_get_hw`. -/
def gst_droid_cam_src_get_hw (h : Header) (env : Env) (src : GstDroidCamSrc) :
    Bool × GstDroidCamSrc :=
  let src := { src with log := src.log ++ [Call.hw_get_module] }
  match env.hw_get_module with
  | none => (false, src)
  | some hw =>
    let src := { src with hw := some hw }
    if hw.module_api_version > h.CAMERA_MODULE_API_VERSION_1_0 then
      (false, { src with hw := none })
    else
      let num := hw.get_number_of_cameras
      if num < 0 then
        (false, src)
      else if num > (MAX_CAMERAS : Int) then
        (false, src)
      else
        let info := set_info_num (set_info_num src.info 1 (-1)) 0 (-1)
        let back := gst_droidcamsrc_fill_info hw (info 0) h.CAMERA_FACING_BACK
        let info := Function.update info 0 back.2
        let front := gst_droidcamsrc_fill_info hw (info 1) h.CAMERA_FACING_FRONT
        let info := Function.update info 1 front.2
        (true, { src with info := info })

/-- The loop of `gst_droidcamsrc_find_camera_device` over the slots still to visit. -/
def find_camera_device_loop (info : Nat → GstDroidCamSrcCamInfo) (direction : Int) :
    List Nat → Option String
  | [] => none
  | x :: xs =>
    if (info x).direction = direction then some (toString (info x).num)
    else find_camera_device_loop info direction xs

/-- Source function `gst_droidcamsrc_find_camera_device`: the id string, or `none` for
`NULL`. -/
def gst_droidcamsrc_find_camera_device (h : Header) (src : GstDroidCamSrc) :
    Option String :=
  let direction :=
    if src.camera_device = GstDroidCamSrcCameraDevice.SECONDARY then
      h.GST_DROID_CAM_SRC_DIRECTION_FRONT
    else h.GST_DROID_CAM_SRC_DIRECTION_BACK
  find_camera_device_loop src.info direction (List.range MAX_CAMERAS)

/-! ## Element state machine -/

/-- Record a collaborator call. -/
def logCall (src : GstDroidCamSrc) (c : Call) : GstDroidCamSrc :=
  { src with log := src.log ++ [c] }

/-- The first `switch` of `gst_droidcamsrc_change_state`: the hardware steps taken before
the base class is asked. The result is `ret` and the element afterwards; `none` stands
for the dereference of a `NULL` `src->dev` in `src->dev->pool->pad = src->vfsrc`. -/
def change_state_pre (h : Header) (env : Env) (src : GstDroidCamSrc) :
    GstStateChange → Option (GstStateChangeReturn × GstDroidCamSrc)
  | GstStateChange.NULL_TO_READY =>
    let r := gst_droid_cam_src_get_hw h env src
    if r.1 = false then some (GstStateChangeReturn.FAILURE, r.2)
    else
      some (GstStateChangeReturn.SUCCESS,
        { logCall r.2 Call.dev_new with dev := some { pool_pad := none } })
  | GstStateChange.READY_TO_PAUSED =>
    match gst_droidcamsrc_find_camera_device h src with
    | none => some (GstStateChangeReturn.FAILURE, src)
    | some id =>
      let src := logCall src (Call.dev_open id)
      if env.dev_open id = false then some (GstStateChangeReturn.FAILURE, src)
      else
        let src := logCall src Call.dev_init
        if env.dev_init = false then some (GstStateChangeReturn.FAILURE, src)
        else
          match src.dev with
          | none => none
          | some dev =>
            some (GstStateChangeReturn.SUCCESS,
              { src with dev := some { dev with pool_pad := some PadName.vfsrc } })
  | GstStateChange.PAUSED_TO_PLAYING =>
    let src := logCall src Call.dev_start
    let ret :=
      if env.dev_start = false then GstStateChangeReturn.FAILURE
      else GstStateChangeReturn.SUCCESS
    let src := logCall { src with ready_for_capture := true } (Call.notify "ready-for-capture")
    some (ret, src)
  | _ => some (GstStateChangeReturn.SUCCESS, src)

/-- The second `switch` of `gst_droidcamsrc_change_state`: the hardware steps taken after
the base class has changed state. -/
def change_state_post (src : GstDroidCamSrc) : GstStateChange → GstDroidCamSrc
  | GstStateChange.PLAYING_TO_PAUSED => logCall src Call.dev_stop
  | GstStateChange.PAUSED_TO_READY => logCall (logCall src Call.dev_deinit) Call.dev_close
  | GstStateChange.READY_TO_NULL =>
    { logCall src Call.dev_destroy with dev := none, hw := none }
  | _ => src

/-- Source function `gst_droidcamsrc_change_state`. -/
def gst_droidcamsrc_change_state (h : Header) (env : Env) (src : GstDroidCamSrc)
    (transition : GstStateChange) : Option (GstStateChangeReturn × GstDroidCamSrc) :=
  match change_state_pre h env src transition with
  | none => none
  | some (ret, src) =>
    if ret = GstStateChangeReturn.FAILURE then some (ret, src)
    else
      let src := logCall src (Call.parent_change_state transition)
      let ret := env.parent_change_state transition
      if ret = GstStateChangeReturn.FAILURE then some (ret, src)
      else
        let src := change_state_post src transition
        if ret = GstStateChangeReturn.SUCCESS
            ∧ (transition = GstStateChange.READY_TO_PAUSED
              ∨ transition = GstStateChange.PLAYING_TO_PAUSED) then
          some (GstStateChangeReturn.NO_PREROLL, src)
        else some (ret, src)

/-- A HAL module that reports `n` cameras, every index facing `facing`. -/
def uniformModule (n : Int) (facing : Int) : camera_module_t :=
  { module_api_version := 0x100
    get_number_of_cameras := n
    get_camera_info := fun _ => { facing := facing, orientation := 0 } }

/-- An environment in which every collaborator succeeds and the HAL module is `hw`. -/
def okEnv (hw : camera_module_t) : Env :=
  { hw_get_module := some hw
    dev_open := fun _ => true
    dev_init := true
    dev_start := true
    parent_change_state := fun _ => GstStateChangeReturn.SUCCESS }

/-- What a test looks at after a transition: the return value, whether `src->hw` is set,
the device handle, the readiness flag and the call log. -/
def observe (r : Option (GstStateChangeReturn × GstDroidCamSrc)) :
    Option (GstStateChangeReturn × Bool × Option GstDroidCamSrcDev × Bool × List Call) :=
  r.map fun p => (p.1, p.2.hw.isSome, p.2.dev, p.2.ready_for_capture, p.2.log)

/-! ## Output ports -/

/-- A buffer handle. -/
abbrev GstBuffer := Nat

/-- A capability set: the list of its structures; the empty list is the empty caps. -/
abbrev GstCaps := List String

/-- Calls a port makes on its lock, its condition variable and the pad API, in order. -/
inductive PadCall where
  | mutex_lock
  | mutex_unlock
  | cond_wait
  | cond_signal
  | check_reconfigure
  | negotiate
  | element_error
  | pause_task
  | push_event_stream_start
  | push_event_segment
  | push (buffer : GstBuffer)
  | start_task
  | stop_task
  | caps_unref (caps : GstCaps)
  | buffer_unref (buffer : GstBuffer)
  deriving DecidableEq, Repr

/-- What a negotiation callback finds: the viewfinder caps of the parameter store
(`gst_droidcamsrc_params_get_viewfinder_caps`) and the answer of the peer
(`gst_pad_peer_query_caps`). -/
structure NegotiateEnv where
  our_caps : Option GstCaps
  peer_caps : Option GstCaps
  deriving DecidableEq, Repr

/-- The fields of `GstDroidCamSrcPad` the loop and the handlers read or write. -/
structure GstDroidCamSrcPad where
  queue : List GstBuffer
  running : Bool
  open_stream : Bool
  open_segment : Bool
  caps : Option GstCaps
  negotiate : Option (NegotiateEnv → Bool)

/-- Source function `gst_droidcamsrc_create_pad`: the slice is zero-filled, then queue,
`running`, `caps` and `negotiate` are set. -/
def gst_droidcamsrc_create_pad : GstDroidCamSrcPad :=
  { queue := []
    running := false
    open_stream := false
    open_segment := false
    caps := none
    negotiate := none }

/-- Source function `gst_droidcamsrc_vfsrc_negotiate`. -/
def gst_droidcamsrc_vfsrc_negotiate (env : NegotiateEnv) : Bool :=
  let ret := false
  match env.our_caps with
  | none => ret
  | some our_caps =>
    if our_caps.isEmpty then ret
    else
      match env.peer_caps with
      | none => ret
      | some peer => if peer.isEmpty then ret else ret

/-- What one iteration of the loop meets: the answer of `gst_pad_check_reconfigure`, what
the negotiation callback finds, and what other threads do to the port while the loop is
blocked in `g_cond_wait` with the lock released: the buffers the producer appends, and
whether a deactivation clears `running`. -/
structure LoopEnv where
  check_reconfigure : Bool
  negotiate : NegotiateEnv
  arrivals : List GstBuffer
  deactivated : Bool
  deriving DecidableEq, Repr

/-- The negotiation step of `gst_droidcamsrc_loop`: `res` and the calls made. -/
def loop_negotiate (env : LoopEnv) (data : GstDroidCamSrcPad) : Bool × List PadCall :=
  if env.check_reconfigure then
    match data.negotiate with
    | some negotiate => (negotiate env.negotiate, [PadCall.check_reconfigure, PadCall.negotiate])
    | none => (true, [PadCall.check_reconfigure])
  else (true, [PadCall.check_reconfigure])

/-- Label `out:` of `gst_droidcamsrc_loop`: the bootstrap events, then the buffer. -/
def loop_out (data : GstDroidCamSrcPad) (buffer : GstBuffer) :
    GstDroidCamSrcPad × List PadCall :=
  let s :=
    if data.open_stream then
      ({ data with open_stream := false }, [PadCall.push_event_stream_start])
    else (data, [])
  let g :=
    if s.1.open_segment then
      ({ s.1 with open_segment := false }, [PadCall.push_event_segment])
    else (s.1, [])
  (g.1, s.2 ++ g.2 ++ [PadCall.push buffer])

/-- One iteration of `gst_droidcamsrc_loop`: the port afterwards and the calls made. -/
def gst_droidcamsrc_loop (env : LoopEnv) (data : GstDroidCamSrcPad) :
    GstDroidCamSrcPad × List PadCall :=
  if data.running = false then
    (data, [PadCall.mutex_lock, PadCall.mutex_unlock])
  else
    let n := loop_negotiate env data
    if n.1 = false then
      (data, [PadCall.mutex_lock] ++ n.2
        ++ [PadCall.element_error, PadCall.pause_task, PadCall.mutex_unlock])
    else
      match data.queue with
      | buffer :: rest =>
        let o := loop_out { data with queue := rest } buffer
        (o.1, [PadCall.mutex_lock] ++ n.2 ++ [PadCall.mutex_unlock] ++ o.2)
      | [] =>
        let data :=
          { data with queue := data.queue ++ env.arrivals,
                      running := data.running && !env.deactivated }
        match data.queue with
        | buffer :: rest =>
          let o := loop_out { data with queue := rest } buffer
          (o.1, [PadCall.mutex_lock] ++ n.2 ++ [PadCall.cond_wait, PadCall.mutex_unlock] ++ o.2)
        | [] =>
          (data, [PadCall.mutex_lock] ++ n.2 ++ [PadCall.cond_wait, PadCall.mutex_unlock])

inductive GstPadMode where
  | NONE
  | PUSH
  | PULL
  deriving DecidableEq, Repr

/-- What the task API answers to the activation handler. -/
structure ActivateEnv where
  start_task : Bool
  stop_task : Bool
  deriving DecidableEq, Repr

/-- Source function `gst_droidcamsrc_pad_activate_mode`: `data` is the private data of the
pad. The result is the return value, the private data afterwards and the calls made. -/
def gst_droidcamsrc_pad_activate_mode (env : ActivateEnv) (data : Option GstDroidCamSrcPad)
    (mode : GstPadMode) (active : Bool) :
    Bool × Option GstDroidCamSrcPad × List PadCall :=
  if mode ≠ GstPadMode.PUSH then (false, data, [])
  else
    match data with
    | none => (false, none, [])
    | some data =>
      let data := { data with running := active }
      let log := [PadCall.mutex_lock, PadCall.cond_signal, PadCall.mutex_unlock]
      if active then
        let data := { data with open_stream := true, open_segment := true }
        if env.start_task = false then (false, some data, log ++ [PadCall.start_task])
        else (true, some data, log ++ [PadCall.start_task])
      else
        let ret := if env.stop_task = false then false else true
        let log := log ++ [PadCall.stop_task, PadCall.mutex_lock]
        let c :=
          match data.caps with
          | some caps => ({ data with caps := none }, [PadCall.caps_unref caps])
          | none => (data, [])
        let log := log ++ c.2 ++ c.1.queue.map PadCall.buffer_unref
        (ret, some { c.1 with queue := [] }, log ++ [PadCall.mutex_unlock])

/-- The event kinds of `GstEventType`; `OTHER` is any value that is not one of the
enumerators the handler names. -/
inductive GstEventType where
  | UNKNOWN
  | FLUSH_START
  | FLUSH_STOP
  | STREAM_START
  | CAPS
  | SEGMENT
  | TAG
  | BUFFERSIZE
  | SINK_MESSAGE
  | EOS
  | TOC
  | SEGMENT_DONE
  | GAP
  | QOS
  | SEEK
  | NAVIGATION
  | LATENCY
  | STEP
  | RECONFIGURE
  | TOC_SELECT
  | CUSTOM_UPSTREAM
  | CUSTOM_DOWNSTREAM
  | CUSTOM_DOWNSTREAM_OOB
  | CUSTOM_DOWNSTREAM_STICKY
  | CUSTOM_BOTH
  | CUSTOM_BOTH_OOB
  | OTHER (code : Nat)
  deriving DecidableEq, Repr

/-- Source function `gst_droidcamsrc_pad_event`, as a function of the type of the event. -/
def gst_droidcamsrc_pad_event : GstEventType → Bool
  | GstEventType.SEEK
  | GstEventType.STREAM_START
  | GstEventType.TAG
  | GstEventType.BUFFERSIZE
  | GstEventType.SINK_MESSAGE
  | GstEventType.SEGMENT
  | GstEventType.EOS
  | GstEventType.TOC
  | GstEventType.SEGMENT_DONE
  | GstEventType.GAP
  | GstEventType.QOS
  | GstEventType.NAVIGATION
  | GstEventType.STEP
  | GstEventType.TOC_SELECT
  | GstEventType.CUSTOM_UPSTREAM
  | GstEventType.CUSTOM_DOWNSTREAM
  | GstEventType.CUSTOM_DOWNSTREAM_OOB
  | GstEventType.CUSTOM_DOWNSTREAM_STICKY
  | GstEventType.CUSTOM_BOTH
  | GstEventType.CUSTOM_BOTH_OOB
  | GstEventType.UNKNOWN => false
  | GstEventType.CAPS
  | GstEventType.LATENCY
  | GstEventType.RECONFIGURE => true
  | GstEventType.FLUSH_START
  | GstEventType.FLUSH_STOP => true
  | GstEventType.OTHER _ => false

/-! ## Runs of a port -/

/-- Modelled from the spec: `enqueue(buffer)` of the Output Port, which the buffer pool
(not among the sources) calls from the capture thread: appends to the tail under the
lock and signals one waiter. -/
def enqueue (data : GstDroidCamSrcPad) (buffer : GstBuffer) :
    GstDroidCamSrcPad × List PadCall :=
  ({ data with queue := data.queue ++ [buffer] },
    [PadCall.mutex_lock, PadCall.cond_signal, PadCall.mutex_unlock])

/-- What happens to an active port between two activations: the producer enqueues a
buffer, or the task runs one iteration of the loop. -/
inductive PortOp where
  | enqueue (buffer : GstBuffer)
  | loop (env : LoopEnv)
  deriving DecidableEq, Repr

/-- One step of a port: the port afterwards and the calls made. -/
def step (data : GstDroidCamSrcPad) : PortOp → GstDroidCamSrcPad × List PadCall
  | PortOp.enqueue buffer => enqueue data buffer
  | PortOp.loop env => gst_droidcamsrc_loop env data

/-- The buffers that reach the tail of the queue during one step: the enqueued buffer,
or what arrived while the iteration was blocked in `g_cond_wait`. -/
def appended (data : GstDroidCamSrcPad) : PortOp → List GstBuffer
  | PortOp.enqueue buffer => [buffer]
  | PortOp.loop env =>
    if PadCall.cond_wait ∈ (gst_droidcamsrc_loop env data).2 then env.arrivals else []

/-- A sequence of steps: the port afterwards, the calls made, and the buffers that
reached the tail of the queue, in order. -/
def run : List PortOp → GstDroidCamSrcPad →
    GstDroidCamSrcPad × List PadCall × List GstBuffer
  | [], data => (data, [], [])
  | op :: ops, data =>
    let s := step data op
    let r := run ops s.1
    (r.1, s.2 ++ r.2.1, appended data op ++ r.2.2)

/-- The buffers pushed downstream, in order. -/
def delivered : List PadCall → List GstBuffer
  | [] => []
  | PadCall.push buffer :: cs => buffer :: delivered cs
  | _ :: cs => delivered cs

/-- The buffers released, in order. -/
def released : List PadCall → List GstBuffer
  | [] => []
  | PadCall.buffer_unref buffer :: cs => buffer :: released cs
  | _ :: cs => released cs

/-- The cached formats released, in order. -/
def released_caps : List PadCall → List GstCaps
  | [] => []
  | PadCall.caps_unref caps :: cs => caps :: released_caps cs
  | _ :: cs => released_caps cs

/-- What is pushed through the pad, events and buffers, in order. -/
def pushes : List PadCall → List PadCall
  | [] => []
  | PadCall.push_event_stream_start :: cs => PadCall.push_event_stream_start :: pushes cs
  | PadCall.push_event_segment :: cs => PadCall.push_event_segment :: pushes cs
  | PadCall.push buffer :: cs => PadCall.push buffer :: pushes cs
  | _ :: cs => pushes cs

/-! ## Predicates used in the statements -/

/-- A hardware step of the first `switch` fails: acquiring the hardware, looking the
camera up, opening or initialising the device, starting it. -/
def pre_step_fails (h : Header) (env : Env) (src : GstDroidCamSrc) : GstStateChange → Prop
  | GstStateChange.NULL_TO_READY => (gst_droid_cam_src_get_hw h env src).1 = false
  | GstStateChange.READY_TO_PAUSED =>
    match gst_droidcamsrc_find_camera_device h src with
    | none => True
    | some id => env.dev_open id = false ∨ env.dev_init = false
  | GstStateChange.PAUSED_TO_PLAYING => env.dev_start = false
  | _ => False

/-- The calls of the second `switch`: device stop, deinit, close and destroy. -/
def isPostStep : Call → Bool
  | Call.dev_stop => true
  | Call.dev_deinit => true
  | Call.dev_close => true
  | Call.dev_destroy => true
  | _ => false

/-- The call into the base class. -/
def isParentCall : Call → Bool
  | Call.parent_change_state _ => true
  | _ => false

/-- The transitions that have a post-transition hardware step. -/
def isDownward : GstStateChange → Bool
  | GstStateChange.PLAYING_TO_PAUSED => true
  | GstStateChange.PAUSED_TO_READY => true
  | GstStateChange.READY_TO_NULL => true
  | _ => false

/-- A HAL module of API version 1.0 with two cameras: index 0 faces back (facing 0),
index 1 and every further index faces front (facing 1). -/
def backFrontModule : camera_module_t :=
  { module_api_version := 0x100
    get_number_of_cameras := 2
    get_camera_info := fun x =>
      if x = 0 then { facing := 0, orientation := 90 } else { facing := 1, orientation := 270 } }

/-- An element in READY: hardware acquired from `backFrontModule`, device handle built. -/
def readyElement : GstDroidCamSrc :=
  { hw := some backFrontModule
    dev := some { pool_pad := none }
    camera_device := GstDroidCamSrcCameraDevice.PRIMARY
    info := fun x =>
      if x = 0 then { num := 0, direction := 0, orientation := 1 }
      else { num := 1, direction := 1, orientation := 3 }
    ready_for_capture := true
    log := [] }

/-- As `okEnv`, but starting the device fails. -/
def startFailsEnv : Env :=
  { okEnv backFrontModule with dev_start := false }

/-- As `okEnv`, but the base class fails every transition. -/
def parentFailsEnv : Env :=
  { okEnv backFrontModule with parent_change_state := fun _ => GstStateChangeReturn.FAILURE }

/-- An active port with an empty queue and no negotiation callback. -/
def activePort : GstDroidCamSrcPad :=
  { gst_droidcamsrc_create_pad with running := true, open_stream := true, open_segment := true }

/-- A loop iteration with no reconfigure pending and nothing happening during a wait. -/
def quietLoopEnv : LoopEnv :=
  { check_reconfigure := false
    negotiate := { our_caps := none, peer_caps := none }
    arrivals := []
    deactivated := false }

/-! ## Quirks

A shallow embedding of `gst/droidcamsrc/gstdroidcamsrcquirks.c`. A `GList *` is a list
(`NULL` is the empty list), a list entry or a string pointer is an `Option`, and a
dereference of `NULL` makes the result `none`. -/

/-- The key file as the loader reads it through GLib, after the attempt to load it from
the configuration path (nothing is found in it when loading failed).
`get_value group key` is the result of `g_key_file_get_value`, `none` when it returns
`NULL` and sets the error; `get_integer group key` is the result of
`g_key_file_get_integer`, `none` when it sets the error, in which case it returns 0. -/
structure GKeyFile where
  get_value : String → String → Option String
  get_integer : String → String → Option Int

inductive GstDRoidCamSrcQuirkType where
  | GST_DROID_CAM_SRC_QUIRK_PROPERTY
  | GST_DROID_CAM_SRC_QUIRK_COMMAND
  deriving DecidableEq, Repr

/-- The structure `_GstDroidCamSrcQuirk`; the field `on` of the source is `on_` here. -/
structure GstDroidCamSrcQuirk where
  direction : Int
  id : String
  type : GstDRoidCamSrcQuirkType
  prop : Option String
  on_ : Option String
  off : Option String
  command_enable : Int
  command_disable : Int
  arg1_enable : Int
  arg2_enable : Int
  arg1_disable : Int
  arg2_disable : Int
  deriving DecidableEq, Repr

/-- The structure `_GstDroidCamSrcQuirks`: the list of entries, each a quirk or `NULL`. -/
structure GstDroidCamSrcQuirks where
  quirks : List (Option GstDroidCamSrcQuirk)
  deriving DecidableEq, Repr

/-- Source function `gst_droidcamsrc_quirk_new`: the quirk, or `none` for `NULL`. The
slice is zero-filled, so the fields that are not read from the file are 0 or `NULL`. -/
def gst_droidcamsrc_quirk_new (file : GKeyFile) (group : String) :
    Option GstDroidCamSrcQuirk :=
  let direction := (file.get_integer group "direction").getD 0
  let type := file.get_value group "type"
  let quirk_type :=
    if type = some "command" then GstDRoidCamSrcQuirkType.GST_DROID_CAM_SRC_QUIRK_COMMAND
    else GstDRoidCamSrcQuirkType.GST_DROID_CAM_SRC_QUIRK_PROPERTY
  if quirk_type = GstDRoidCamSrcQuirkType.GST_DROID_CAM_SRC_QUIRK_PROPERTY then
    let prop := file.get_value group "prop"
    let on_ := file.get_value group "on"
    let off := file.get_value group "off"
    if prop = none ∨ on_ = none ∨ off = none then none
    else
      some { direction := direction, id := group, type := quirk_type,
             prop := prop, on_ := on_, off := off,
             command_enable := 0, command_disable := 0,
             arg1_enable := 0, arg2_enable := 0, arg1_disable := 0, arg2_disable := 0 }
  else
    some { direction := direction, id := group, type := quirk_type,
           prop := none, on_ := none, off := none,
           command_enable := (file.get_integer group "command_enable").getD 0,
           command_disable := (file.get_integer group "command_disable").getD 0,
           arg1_enable := (file.get_integer group "arg1_enable").getD 0,
           arg2_enable := (file.get_integer group "arg2_enable").getD 0,
           arg1_disable := (file.get_integer group "arg1_disable").getD 0,
           arg2_disable := (file.get_integer group "arg2_disable").getD 0 }

/-- Library function `g_list_append`. -/
def g_list_append {α : Type} (list : List α) (data : α) : List α :=
  list ++ [data]

/-- Source function `gst_droidcamsrc_quirks_new`, given the key file after the attempt to
load it. -/
def gst_droidcamsrc_quirks_new (file : GKeyFile) : GstDroidCamSrcQuirks :=
  let quirks : List (Option GstDroidCamSrcQuirk) := []
  let quirks := g_list_append quirks (gst_droidcamsrc_quirk_new file "face-detection")
  let quirks := g_list_append quirks (gst_droidcamsrc_quirk_new file "image-noise-reduction")
  { quirks := quirks }

/-- Library function `g_strcmp0` on two strings that are not `NULL`: zero exactly when
they are equal, else the sign of the comparison. -/
def g_strcmp0 (a b : String) : Int :=
  if a = b then 0 else if a < b then -1 else 1

/-- Source function `_find_quirk`: `a` is the list entry, `b` the id looked for; `none`
is the dereference of a `NULL` entry in `a->id`. -/
def _find_quirk (a : Option GstDroidCamSrcQuirk) (b : String) : Option Int :=
  match a with
  | none => none
  | some quirk => some (g_strcmp0 quirk.id b)

/-- Library function `g_list_find_custom`: walks the list and returns the first node for
which `func (node->data, data)` is zero, or `NULL` (the empty list) when there is none.
The outer `none` is a `func` that did not return. -/
def g_list_find_custom {α β : Type} (func : α → β → Option Int) :
    List α → β → Option (List α)
  | [], _ => some []
  | a :: rest, data =>
    match func a data with
    | none => none
    | some r => if r = 0 then some (a :: rest) else g_list_find_custom func rest data

/-- Calls `gst_droidcamsrc_quirks_apply` makes on the device: a parameter set on
`src->dev->params`, or a command sent to `src->dev`. -/
inductive QuirkCall where
  | params_set_string (key : Option String) (value : Option String)
  | dev_send_command (cmd : Int) (arg1 : Int) (arg2 : Int)
  deriving DecidableEq, Repr

/-- Source function `gst_droidcamsrc_quirks_apply`: the calls made on the device, or
`none` when a `NULL` pointer is dereferenced: the `->data` of the node the lookup
returned, a `NULL` entry inside the lookup, or `src->dev` on the way to its parameters. -/
def gst_droidcamsrc_quirks_apply (quirks : GstDroidCamSrcQuirks) (src : GstDroidCamSrc)
    (direction : Int) (quirk_id : String) (enable : Bool) : Option (List QuirkCall) :=
  match g_list_find_custom _find_quirk quirks.quirks quirk_id with
  | none => none
  | some [] => none
  | some (data :: _) =>
    match data with
    | none => some []
    | some quirk =>
      if quirk.direction = direction ∨ quirk.direction = -1 then
        if enable then
          if quirk.type = GstDRoidCamSrcQuirkType.GST_DROID_CAM_SRC_QUIRK_PROPERTY then
            match src.dev with
            | none => none
            | some _ => some [QuirkCall.params_set_string quirk.prop quirk.on_]
          else
            some [QuirkCall.dev_send_command quirk.command_enable quirk.arg1_enable
              quirk.arg2_enable]
        else
          if quirk.type = GstDRoidCamSrcQuirkType.GST_DROID_CAM_SRC_QUIRK_PROPERTY then
            match src.dev with
            | none => none
            | some _ => some [QuirkCall.params_set_string quirk.prop quirk.off]
          else
            some [QuirkCall.dev_send_command quirk.command_disable quirk.arg1_disable
              quirk.arg2_disable]
      else some []

/-- A key file with these two sections:
`[face-detection]` with `type=command`, `command_enable=1`, `command_disable=2`,
`arg1_enable=3`, `arg2_enable=4`, `arg1_disable=5`, `arg2_disable=6`, `direction=1`;
`[image-noise-reduction]` with `prop=denoise`, `on=denoise-on`, `off=denoise-off`,
`direction=-1`. -/
def wellFormedKeyFile : GKeyFile :=
  { get_value := fun group key =>
      if group = "face-detection" then
        if key = "type" then some "command"
        else if key = "command_enable" then some "1"
        else if key = "command_disable" then some "2"
        else if key = "arg1_enable" then some "3"
        else if key = "arg2_enable" then some "4"
        else if key = "arg1_disable" then some "5"
        else if key = "arg2_disable" then some "6"
        else if key = "direction" then some "1"
        else none
      else if group = "image-noise-reduction" then
        if key = "prop" then some "denoise"
        else if key = "on" then some "denoise-on"
        else if key = "off" then some "denoise-off"
        else if key = "direction" then some "-1"
        else none
      else none
    get_integer := fun group key =>
      if group = "face-detection" then
        if key = "command_enable" then some 1
        else if key = "command_disable" then some 2
        else if key = "arg1_enable" then some 3
        else if key = "arg2_enable" then some 4
        else if key = "arg1_disable" then some 5
        else if key = "arg2_disable" then some 6
        else if key = "direction" then some 1
        else none
      else if group = "image-noise-reduction" then
        if key = "direction" then some (-1) else none
      else none }

/-- A key file with these two sections:
`[face-detection]` with `prop=face-detection`, `off=off`, `direction=-1` and no `on`;
`[image-noise-reduction]` with `prop=denoise`, `on=denoise-on`, `off=denoise-off`,
`direction=-1`. -/
def faceDetectionIncompleteKeyFile : GKeyFile :=
  { get_value := fun group key =>
      if group = "face-detection" then
        if key = "prop" then some "face-detection"
        else if key = "off" then some "off"
        else if key = "direction" then some "-1"
        else none
      else if group = "image-noise-reduction" then
        if key = "prop" then some "denoise"
        else if key = "on" then some "denoise-on"
        else if key = "off" then some "denoise-off"
        else if key = "direction" then some "-1"
        else none
      else none
    get_integer := fun group key =>
      if (group = "face-detection" ∨ group = "image-noise-reduction") ∧ key = "direction" then
        some (-1)
      else none }

/-- The viewfinder port while active: the port of `gst_droidcamsrc_init`, whose
negotiation callback is `gst_droidcamsrc_vfsrc_negotiate`, running with two buffers
queued. -/
def activeViewfinderPort : GstDroidCamSrcPad :=
  { gst_droidcamsrc_create_pad with
    negotiate := some gst_droidcamsrc_vfsrc_negotiate
    running := true
    open_stream := true
    open_segment := true
    queue := [4, 5] }

/-! ## Deactivation of a port whose loop is blocked

The handler and the loop run on two threads. The pieces below are the handler and the
loop cut at the points where the other thread gets to run: the handler between its first
critical section and `gst_pad_stop_task`, the loop at `g_cond_wait`. -/

/-- The first critical section of `gst_droidcamsrc_pad_activate_mode`: under the lock of
the port, `running` is set to `active` and the condition is signalled. -/
def activate_mode_signal (data : GstDroidCamSrcPad) (active : Bool) :
    GstDroidCamSrcPad × List PadCall :=
  ({ data with running := active },
    [PadCall.mutex_lock, PadCall.cond_signal, PadCall.mutex_unlock])

/-- The deactivation branch of `gst_droidcamsrc_pad_activate_mode` after the first
critical section: the task is stopped, then the cached caps and the queued buffers are
released under the lock. The result is the return value, the port and the calls made. -/
def activate_mode_drain (env : ActivateEnv) (data : GstDroidCamSrcPad) :
    Bool × GstDroidCamSrcPad × List PadCall :=
  let ret := if env.stop_task = false then false else true
  let c :=
    match data.caps with
    | some caps => ({ data with caps := none }, [PadCall.caps_unref caps])
    | none => (data, [])
  (ret, { c.1 with queue := [] },
    [PadCall.stop_task, PadCall.mutex_lock] ++ c.2 ++ c.1.queue.map PadCall.buffer_unref
      ++ [PadCall.mutex_unlock])

/-- The part of `gst_droidcamsrc_loop` that follows the return of `g_cond_wait`, the lock
held again: the queue is popped; a buffer goes to `out:`, no buffer is the signal to exit
and only the lock is released. -/
def loop_after_wake (data : GstDroidCamSrcPad) : GstDroidCamSrcPad × List PadCall :=
  match data.queue with
  | buffer :: rest =>
    let o := loop_out { data with queue := rest } buffer
    (o.1, [PadCall.mutex_unlock] ++ o.2)
  | [] => (data, [PadCall.mutex_unlock])

/-- A push-mode activate(false) on a port whose loop is blocked in `g_cond_wait`; `data`
is the port as the blocked iteration left it, the lock released by the wait. The handler
runs its first critical section. The blocked thread resumes only if that section
signalled the condition: if it did not, `gst_pad_stop_task` joins a task that is never
woken, and the result is `none`. If it did, the loop resumes on the port the handler left,
finishes its iteration, and the handler goes on to stop the task and drain the port. The
result is the return value of the handler, the port at the end, the calls of the loop
from its wake-up on, and the calls of the handler. -/
def deactivate_blocked_loop (env : ActivateEnv) (data : GstDroidCamSrcPad) :
    Option (Bool × GstDroidCamSrcPad × List PadCall × List PadCall) :=
  let s := activate_mode_signal data false
  if PadCall.cond_signal ∈ s.2 then
    let w := loop_after_wake s.1
    let r := activate_mode_drain env w.1
    some (r.1, r.2.1, w.2, s.2 ++ r.2.2)
  else none

/-! # Theorems -/

/-! ## Hardware acquisition -/

theorem toString_natCast (n : Nat) : toString (n : Int) = toString n := rfl

theorem range_MAX_CAMERAS : List.range MAX_CAMERAS = [0, 1] := by decide

/-- With the module acquired, its version supported and more than `MAX_CAMERAS` cameras
reported, the transition fails, no device handle is built, and `src->hw` keeps pointing to
the module. -/
theorem null_to_ready_too_many (h : Header) (env : Env) (src : GstDroidCamSrc)
    (hw : camera_module_t) (hmod : env.hw_get_module = some hw)
    (hver : hw.module_api_version ≤ h.CAMERA_MODULE_API_VERSION_1_0)
    (hnum : (MAX_CAMERAS : Int) < hw.get_number_of_cameras) :
    gst_droidcamsrc_change_state h env src GstStateChange.NULL_TO_READY
      = some (GstStateChangeReturn.FAILURE,
          { src with hw := some hw, log := src.log ++ [Call.hw_get_module] }) := by
  have h0 : ¬ hw.get_number_of_cameras < 0 := by
    have : (0 : Int) ≤ (MAX_CAMERAS : Int) := Int.ofNat_nonneg _
    omega
  simp [gst_droidcamsrc_change_state, change_state_pre, gst_droid_cam_src_get_hw, hmod,
    Nat.not_lt.mpr hver, h0, hnum]

/-- With the module acquired, its version supported and a camera count of zero, the
hardware step succeeds whatever the HAL leaves in the info structure: the device handle is
built and `src->hw` points to the module. -/
theorem null_to_ready_zero_cameras (h : Header) (env : Env) (src : GstDroidCamSrc)
    (hw : camera_module_t) (hmod : env.hw_get_module = some hw)
    (hver : hw.module_api_version ≤ h.CAMERA_MODULE_API_VERSION_1_0)
    (hnum : hw.get_number_of_cameras = 0) :
    ∃ s', change_state_pre h env src GstStateChange.NULL_TO_READY
        = some (GstStateChangeReturn.SUCCESS, s')
      ∧ s'.dev = some { pool_pad := none } ∧ s'.hw = some hw
      ∧ s'.log = src.log ++ [Call.hw_get_module, Call.dev_new] := by
  have hM : ¬ ((MAX_CAMERAS : Int) < 0) := by decide
  simp [change_state_pre, gst_droid_cam_src_get_hw, hmod, Nat.not_lt.mpr hver, hnum, hM,
    logCall]

/-- C1 (the code at the failing input): a module of API version 1.0 reporting 3 cameras,
on a freshly initialised element. The NULL->READY transition returns FAILURE and builds
no device handle, but `src->hw` is still set afterwards; only the unsupported-version
path resets it. -/
theorem C1_hw_still_set_when_too_many_cameras :
    observe (gst_droidcamsrc_change_state androidHeader (okEnv (uniformModule 3 0))
        gst_droidcamsrc_init GstStateChange.NULL_TO_READY)
      = some (GstStateChangeReturn.FAILURE, true, none, true, [Call.hw_get_module]) := by
  decide

/-- C2 (the code at the failing input): a module of API version 1.0 reporting 0 cameras,
on a freshly initialised element. The guard `num < 0` lets the count through, the device
handle is built, the base class is asked and the transition succeeds. -/
theorem C2_zero_cameras_transition_succeeds :
    observe (gst_droidcamsrc_change_state androidHeader (okEnv (uniformModule 0 0))
        gst_droidcamsrc_init GstStateChange.NULL_TO_READY)
      = some (GstStateChangeReturn.SUCCESS, true, some { pool_pad := none }, true,
          [Call.hw_get_module, Call.dev_new,
           Call.parent_change_state GstStateChange.NULL_TO_READY]) := by
  decide

/-! ## Camera lookup -/

/-- C3 (the code at the failing input): a freshly initialised element with the default
selector `primary`, and a HAL whose only camera faces front (the Android facing values:
back 0, front 1). After a successful NULL->READY the back slot is unfilled: its number
is -1 and its direction is still the zero it was initialised with, which is the back
direction. The lookup returns the id "-1" for it, and READY->PAUSED opens the device
"-1" instead of failing. -/
theorem C3_primary_with_only_front_resolves_to_unfilled_slot :
    ((gst_droidcamsrc_change_state androidHeader (okEnv (uniformModule 1 1))
        gst_droidcamsrc_init GstStateChange.NULL_TO_READY).map fun r =>
      (r.1, r.2.camera_device, (r.2.info 0).num,
       gst_droidcamsrc_find_camera_device androidHeader r.2,
       observe (gst_droidcamsrc_change_state androidHeader (okEnv (uniformModule 1 1))
         r.2 GstStateChange.READY_TO_PAUSED)))
      = some (GstStateChangeReturn.SUCCESS, GstDroidCamSrcCameraDevice.PRIMARY, -1,
          some "-1",
          some (GstStateChangeReturn.NO_PREROLL, true,
            some { pool_pad := some PadName.vfsrc }, true,
            [Call.hw_get_module, Call.dev_new,
             Call.parent_change_state GstStateChange.NULL_TO_READY,
             Call.dev_open "-1", Call.dev_init,
             Call.parent_change_state GstStateChange.READY_TO_PAUSED])) := by
  rfl

/-- The other direction on the same kind of input: a freshly initialised element with the
selector `secondary` and a HAL whose only camera faces back. The front slot is unfilled, no
slot has the front direction, the lookup returns no id and READY->PAUSED fails before the
device is opened. -/
theorem secondary_with_only_back_fails :
    ((gst_droidcamsrc_change_state androidHeader (okEnv (uniformModule 1 0))
        { gst_droidcamsrc_init with camera_device := GstDroidCamSrcCameraDevice.SECONDARY }
        GstStateChange.NULL_TO_READY).map fun r =>
      (r.1, gst_droidcamsrc_find_camera_device androidHeader r.2,
       observe (gst_droidcamsrc_change_state androidHeader (okEnv (uniformModule 1 0))
         r.2 GstStateChange.READY_TO_PAUSED)))
      = some (GstStateChangeReturn.SUCCESS, none,
          some (GstStateChangeReturn.FAILURE, true, some { pool_pad := none }, true,
            [Call.hw_get_module, Call.dev_new,
             Call.parent_change_state GstStateChange.NULL_TO_READY])) := by
  rfl

/-- C4: when the module is acquired with a supported version and a supported camera
count, and it reports a back-facing camera at index `b` and a front-facing camera at
index `f`, then after `gst_droid_cam_src_get_hw` the selector `primary` resolves to the
decimal string of `b` and `secondary` to the decimal string of `f`. The header constants
are taken as given: the two facing values differ and the direction enumeration follows
them. -/
theorem C4_selectors_resolve_to_facing_indices (h : Header) (env : Env)
    (src : GstDroidCamSrc) (hw : camera_module_t) (b f : Nat)
    (hmod : env.hw_get_module = some hw)
    (hver : hw.module_api_version ≤ h.CAMERA_MODULE_API_VERSION_1_0)
    (hnum : hw.get_number_of_cameras ≤ (MAX_CAMERAS : Int))
    (hb : (b : Int) < hw.get_number_of_cameras)
    (hf : (f : Int) < hw.get_number_of_cameras)
    (hback : (hw.get_camera_info b).facing = h.CAMERA_FACING_BACK)
    (hfront : (hw.get_camera_info f).facing = h.CAMERA_FACING_FRONT)
    (hne : h.CAMERA_FACING_BACK ≠ h.CAMERA_FACING_FRONT)
    (hdb : h.GST_DROID_CAM_SRC_DIRECTION_BACK = h.CAMERA_FACING_BACK)
    (hdf : h.GST_DROID_CAM_SRC_DIRECTION_FRONT = h.CAMERA_FACING_FRONT) :
    (gst_droid_cam_src_get_hw h env src).1 = true
    ∧ gst_droidcamsrc_find_camera_device h
        { (gst_droid_cam_src_get_hw h env src).2 with
          camera_device := GstDroidCamSrcCameraDevice.PRIMARY } = some (toString b)
    ∧ gst_droidcamsrc_find_camera_device h
        { (gst_droid_cam_src_get_hw h env src).2 with
          camera_device := GstDroidCamSrcCameraDevice.SECONDARY } = some (toString f) := by
  have hM : (MAX_CAMERAS : Int) = 2 := rfl
  have hb2 : b < 2 := by omega
  have hf2 : f < 2 := by omega
  have h0 : ¬ hw.get_number_of_cameras < 0 := by omega
  have hgt : ¬ (MAX_CAMERAS : Int) < hw.get_number_of_cameras := by omega
  have hbf : b ≠ f := by
    intro e
    subst e
    exact hne (hback.symm.trans hfront)
  have hcases : (b = 0 ∧ f = 1) ∨ (b = 1 ∧ f = 0) := by omega
  have hne' : ¬ h.CAMERA_FACING_FRONT = h.CAMERA_FACING_BACK := fun e => hne e.symm
  rcases hcases with ⟨rfl, rfl⟩ | ⟨rfl, rfl⟩
  · have hbf2 : ¬ (hw.get_camera_info 0).facing = h.CAMERA_FACING_FRONT := by
      rw [hback]; exact hne
    simp [gst_droid_cam_src_get_hw, gst_droidcamsrc_find_camera_device, hmod,
      Nat.not_lt.mpr hver, h0, hgt, gst_droidcamsrc_fill_info, range_MAX_CAMERAS,
      fill_info_loop, find_camera_device_loop, set_info_num, hback, hfront, hbf2,
      hdb, hdf, hne, hne']
    exact ⟨rfl, rfl⟩
  · have hbf2 : ¬ (hw.get_camera_info 0).facing = h.CAMERA_FACING_BACK := by
      rw [hfront]; exact hne'
    simp [gst_droid_cam_src_get_hw, gst_droidcamsrc_find_camera_device, hmod,
      Nat.not_lt.mpr hver, h0, hgt, gst_droidcamsrc_fill_info, range_MAX_CAMERAS,
      fill_info_loop, find_camera_device_loop, set_info_num, hback, hfront, hbf2,
      hdb, hdf, hne, hne']
    exact ⟨rfl, rfl⟩

/-- C4 at the example of the spec: back camera at index 0, front camera at index 1; the
selector `primary` resolves to "0" and `secondary` to "1". -/
theorem C4_selectors_resolve_example :
    (okEnv backFrontModule).hw_get_module = some backFrontModule
    ∧ (backFrontModule.get_camera_info 0).facing = androidHeader.CAMERA_FACING_BACK
    ∧ (backFrontModule.get_camera_info 1).facing = androidHeader.CAMERA_FACING_FRONT
    ∧ (gst_droid_cam_src_get_hw androidHeader (okEnv backFrontModule)
        gst_droidcamsrc_init).1 = true
    ∧ gst_droidcamsrc_find_camera_device androidHeader
        { (gst_droid_cam_src_get_hw androidHeader (okEnv backFrontModule)
            gst_droidcamsrc_init).2 with
          camera_device := GstDroidCamSrcCameraDevice.PRIMARY } = some "0"
    ∧ gst_droidcamsrc_find_camera_device androidHeader
        { (gst_droid_cam_src_get_hw androidHeader (okEnv backFrontModule)
            gst_droidcamsrc_init).2 with
          camera_device := GstDroidCamSrcCameraDevice.SECONDARY } = some "1" :=
  ⟨rfl, rfl, rfl,
    C4_selectors_resolve_to_facing_indices androidHeader (okEnv backFrontModule)
      gst_droidcamsrc_init backFrontModule 0 1 rfl (by decide) (by decide) (by decide)
      (by decide) rfl rfl (by decide) rfl rfl⟩

/-! ## Element state machine -/

/-- PAUSED->PLAYING with a device that fails to start. -/
theorem paused_to_playing_start_fails (h : Header) (env : Env) (src : GstDroidCamSrc)
    (hfail : env.dev_start = false) :
    gst_droidcamsrc_change_state h env src GstStateChange.PAUSED_TO_PLAYING
      = some (GstStateChangeReturn.FAILURE,
          { src with ready_for_capture := true,
                     log := src.log ++ [Call.dev_start, Call.notify "ready-for-capture"] }) := by
  simp [gst_droidcamsrc_change_state, change_state_pre, logCall, hfail]

/-- C5: in PAUSED->PLAYING, when starting the device fails the transition returns
FAILURE, `ready_for_capture` is TRUE afterwards and the calls made are the start of the
device followed by one "ready-for-capture" notification (the base class is not asked);
when starting succeeds, `ready_for_capture` is TRUE and the notification is emitted
exactly once just the same. -/
theorem C5_start_failure_still_marks_ready (h : Header) (env : Env) (src : GstDroidCamSrc)
    (hfail : env.dev_start = false) :
    gst_droidcamsrc_change_state h env src GstStateChange.PAUSED_TO_PLAYING
      = some (GstStateChangeReturn.FAILURE,
          { src with ready_for_capture := true,
                     log := src.log ++ [Call.dev_start, Call.notify "ready-for-capture"] })
    ∧ List.count (Call.notify "ready-for-capture")
        [Call.dev_start, Call.notify "ready-for-capture"] = 1
    ∧ ∀ env' : Env, env'.dev_start = true →
        gst_droidcamsrc_change_state h env' src GstStateChange.PAUSED_TO_PLAYING
          = some (env'.parent_change_state GstStateChange.PAUSED_TO_PLAYING,
              { src with
                ready_for_capture := true,
                log := src.log ++ [Call.dev_start, Call.notify "ready-for-capture",
                  Call.parent_change_state GstStateChange.PAUSED_TO_PLAYING] })
          ∧ List.count (Call.notify "ready-for-capture")
              [Call.dev_start, Call.notify "ready-for-capture",
                Call.parent_change_state GstStateChange.PAUSED_TO_PLAYING] = 1 := by
  refine ⟨paused_to_playing_start_fails h env src hfail, by decide, ?_⟩
  · intro env' hok
    refine ⟨?_, by decide⟩
    by_cases hp : env'.parent_change_state GstStateChange.PAUSED_TO_PLAYING
        = GstStateChangeReturn.FAILURE
    · simp [gst_droidcamsrc_change_state, change_state_pre, logCall, hok, hp]
    · simp [gst_droidcamsrc_change_state, change_state_pre, change_state_post, logCall,
        hok, hp]

/-- C5 on an element in PAUSED whose device fails to start. -/
theorem C5_start_failure_example :
    startFailsEnv.dev_start = false
    ∧ observe (gst_droidcamsrc_change_state androidHeader startFailsEnv
        { readyElement with ready_for_capture := false } GstStateChange.PAUSED_TO_PLAYING)
      = some (GstStateChangeReturn.FAILURE, true, some { pool_pad := none }, true,
          [Call.dev_start, Call.notify "ready-for-capture"]) :=
  ⟨rfl, by
    rw [(C5_start_failure_still_marks_ready androidHeader startFailsEnv
      { readyElement with ready_for_capture := false } rfl).1]
    rfl⟩

/-- C6: for every transition, (1) if a hardware step of the first `switch` fails, the
function returns FAILURE and none of the calls it has made is the call into the base class
or a post-transition step; (2) if the hardware steps succeed and the base class returns
FAILURE, the function returns FAILURE, the call into the base class is the last call
made, no post-transition step has run, `src->dev` and `src->hw` have not been cleared,
and for the three transitions that have a post-transition step the element is as before
apart from the logged call. -/
theorem C6_failures_short_circuit (h : Header) (env : Env) (src : GstDroidCamSrc)
    (t : GstStateChange) :
    (pre_step_fails h env src t →
      ∃ s' calls,
        gst_droidcamsrc_change_state h env src t = some (GstStateChangeReturn.FAILURE, s')
        ∧ s'.log = src.log ++ calls
        ∧ ∀ c ∈ calls, isParentCall c = false ∧ isPostStep c = false)
    ∧ (¬ pre_step_fails h env src t →
        (t = GstStateChange.READY_TO_PAUSED → src.dev.isSome = true) →
        env.parent_change_state t = GstStateChangeReturn.FAILURE →
        ∃ s' calls,
          gst_droidcamsrc_change_state h env src t = some (GstStateChangeReturn.FAILURE, s')
          ∧ s'.log = src.log ++ calls ++ [Call.parent_change_state t]
          ∧ (∀ c ∈ calls, isParentCall c = false ∧ isPostStep c = false)
          ∧ (src.dev.isSome = true → s'.dev.isSome = true)
          ∧ (src.hw.isSome = true → s'.hw.isSome = true)
          ∧ (isDownward t = true → s' = logCall src (Call.parent_change_state t))) := by
  constructor
  · intro hpre
    cases t with
    | NULL_TO_READY =>
      have hpre' : (gst_droid_cam_src_get_hw h env src).1 = false := hpre
      refine ⟨(gst_droid_cam_src_get_hw h env src).2, [Call.hw_get_module], ?_, ?_, ?_⟩
      · simp [gst_droidcamsrc_change_state, change_state_pre, hpre']
      · unfold gst_droid_cam_src_get_hw
        cases env.hw_get_module with
        | none => rfl
        | some hw =>
          dsimp only
          split_ifs <;> rfl
      · intro c hc
        simp at hc
        subst hc
        exact ⟨rfl, rfl⟩
    | READY_TO_PAUSED =>
      cases hfind : gst_droidcamsrc_find_camera_device h src with
      | none =>
        refine ⟨src, [], ?_, by simp, by simp⟩
        simp [gst_droidcamsrc_change_state, change_state_pre, hfind]
      | some id =>
        have hpre' : env.dev_open id = false ∨ env.dev_init = false := by
          simpa [pre_step_fails, hfind] using hpre
        by_cases ho : env.dev_open id = false
        · refine ⟨logCall src (Call.dev_open id), [Call.dev_open id], ?_, rfl, ?_⟩
          · simp [gst_droidcamsrc_change_state, change_state_pre, hfind, ho]
          · intro c hc
            simp at hc
            subst hc
            exact ⟨rfl, rfl⟩
        · have hi : env.dev_init = false := by
            rcases hpre' with h1 | h1
            · exact absurd h1 ho
            · exact h1
          refine ⟨logCall (logCall src (Call.dev_open id)) Call.dev_init,
            [Call.dev_open id, Call.dev_init], ?_, by simp [logCall], ?_⟩
          · simp [gst_droidcamsrc_change_state, change_state_pre, hfind, ho, hi]
          · intro c hc
            simp at hc
            rcases hc with rfl | rfl <;> exact ⟨rfl, rfl⟩
    | PAUSED_TO_PLAYING =>
      have hpre' : env.dev_start = false := hpre
      refine ⟨_, [Call.dev_start, Call.notify "ready-for-capture"],
        (paused_to_playing_start_fails h env src hpre'), rfl, ?_⟩
      intro c hc
      simp at hc
      rcases hc with rfl | rfl <;> exact ⟨rfl, rfl⟩
    | PLAYING_TO_PAUSED => exact absurd hpre (by simp [pre_step_fails])
    | PAUSED_TO_READY => exact absurd hpre (by simp [pre_step_fails])
    | READY_TO_NULL => exact absurd hpre (by simp [pre_step_fails])
  · intro hpre hdev hparent
    cases t with
    | NULL_TO_READY =>
      have hpre' : (gst_droid_cam_src_get_hw h env src).1 = true := by
        simpa [pre_step_fails] using hpre
      have hlog : (gst_droid_cam_src_get_hw h env src).2.log
          = src.log ++ [Call.hw_get_module] := by
        unfold gst_droid_cam_src_get_hw
        cases env.hw_get_module with
        | none => rfl
        | some hw =>
          dsimp only
          split_ifs <;> rfl
      have hhw : (gst_droid_cam_src_get_hw h env src).2.hw.isSome = true := by
        revert hpre'
        unfold gst_droid_cam_src_get_hw
        cases env.hw_get_module with
        | none => simp
        | some hw =>
          dsimp only
          split_ifs <;> simp
      refine ⟨logCall
          { logCall (gst_droid_cam_src_get_hw h env src).2 Call.dev_new with
            dev := some { pool_pad := none } }
          (Call.parent_change_state GstStateChange.NULL_TO_READY),
        [Call.hw_get_module, Call.dev_new], ?_, ?_, ?_, ?_, ?_, ?_⟩
      · simp only [gst_droidcamsrc_change_state, change_state_pre, hpre', hparent]
        simp
      · simp [logCall, hlog]
      · intro c hc
        simp at hc
        rcases hc with rfl | rfl <;> exact ⟨rfl, rfl⟩
      · intro _; rfl
      · intro _; exact hhw
      · intro hd; exact absurd hd (by decide)
    | READY_TO_PAUSED =>
      cases hfind : gst_droidcamsrc_find_camera_device h src with
      | none => exact absurd (by simp [pre_step_fails, hfind]) hpre
      | some id =>
        have hpre' : ¬ (env.dev_open id = false ∨ env.dev_init = false) := by
          simpa [pre_step_fails, hfind] using hpre
        have ho : env.dev_open id = true := by
          cases hq : env.dev_open id
          · exact absurd (Or.inl hq) hpre'
          · rfl
        have hi : env.dev_init = true := by
          cases hq : env.dev_init
          · exact absurd (Or.inr hq) hpre'
          · rfl
        cases hd : src.dev with
        | none => simp [hd] at hdev
        | some dev =>
          refine ⟨logCall
              { logCall (logCall src (Call.dev_open id)) Call.dev_init with
                dev := some { dev with pool_pad := some PadName.vfsrc } }
              (Call.parent_change_state GstStateChange.READY_TO_PAUSED),
            [Call.dev_open id, Call.dev_init], ?_, ?_, ?_, ?_, ?_, ?_⟩
          · simp only [gst_droidcamsrc_change_state, change_state_pre, hfind, ho, hi,
              logCall, hd, hparent]
            simp
          · simp [logCall]
          · intro c hc
            simp at hc
            rcases hc with rfl | rfl <;> exact ⟨rfl, rfl⟩
          · intro _; rfl
          · intro hx; exact hx
          · intro hx; exact absurd hx (by decide)
    | PAUSED_TO_PLAYING =>
      have hs : env.dev_start = true := by
        cases hq : env.dev_start
        · exact absurd hq hpre
        · rfl
      refine ⟨logCall
          (logCall { logCall src Call.dev_start with ready_for_capture := true }
            (Call.notify "ready-for-capture"))
          (Call.parent_change_state GstStateChange.PAUSED_TO_PLAYING),
        [Call.dev_start, Call.notify "ready-for-capture"], ?_, ?_, ?_, ?_, ?_, ?_⟩
      · simp only [gst_droidcamsrc_change_state, change_state_pre, hs, logCall, hparent]
        simp
      · simp [logCall]
      · intro c hc
        simp at hc
        rcases hc with rfl | rfl <;> exact ⟨rfl, rfl⟩
      · intro hx; exact hx
      · intro hx; exact hx
      · intro hx; exact absurd hx (by decide)
    | PLAYING_TO_PAUSED =>
      refine ⟨logCall src (Call.parent_change_state _), [], ?_, by simp [logCall],
        by simp, fun hx => hx, fun hx => hx, fun _ => rfl⟩
      simp [gst_droidcamsrc_change_state, change_state_pre, hparent]
    | PAUSED_TO_READY =>
      refine ⟨logCall src (Call.parent_change_state _), [], ?_, by simp [logCall],
        by simp, fun hx => hx, fun hx => hx, fun _ => rfl⟩
      simp [gst_droidcamsrc_change_state, change_state_pre, hparent]
    | READY_TO_NULL =>
      refine ⟨logCall src (Call.parent_change_state _), [], ?_, by simp [logCall],
        by simp, fun hx => hx, fun hx => hx, fun _ => rfl⟩
      simp [gst_droidcamsrc_change_state, change_state_pre, hparent]

/-- C6 on an element with its device handle built: a device that fails to start in
PAUSED->PLAYING, and a base class that fails READY->NULL. -/
theorem C6_failures_short_circuit_example :
    (pre_step_fails androidHeader startFailsEnv readyElement GstStateChange.PAUSED_TO_PLAYING
      ∧ ∃ s' calls,
        gst_droidcamsrc_change_state androidHeader startFailsEnv readyElement
            GstStateChange.PAUSED_TO_PLAYING = some (GstStateChangeReturn.FAILURE, s')
        ∧ s'.log = readyElement.log ++ calls
        ∧ ∀ c ∈ calls, isParentCall c = false ∧ isPostStep c = false)
    ∧ (¬ pre_step_fails androidHeader parentFailsEnv readyElement GstStateChange.READY_TO_NULL
      ∧ parentFailsEnv.parent_change_state GstStateChange.READY_TO_NULL
          = GstStateChangeReturn.FAILURE
      ∧ ∃ s' calls,
        gst_droidcamsrc_change_state androidHeader parentFailsEnv readyElement
            GstStateChange.READY_TO_NULL = some (GstStateChangeReturn.FAILURE, s')
        ∧ s'.log = readyElement.log ++ calls
            ++ [Call.parent_change_state GstStateChange.READY_TO_NULL]
        ∧ (∀ c ∈ calls, isParentCall c = false ∧ isPostStep c = false)
        ∧ (readyElement.dev.isSome = true → s'.dev.isSome = true)
        ∧ (readyElement.hw.isSome = true → s'.hw.isSome = true)
        ∧ (isDownward GstStateChange.READY_TO_NULL = true →
            s' = logCall readyElement
              (Call.parent_change_state GstStateChange.READY_TO_NULL))) :=
  ⟨⟨rfl,
      (C6_failures_short_circuit androidHeader startFailsEnv readyElement
        GstStateChange.PAUSED_TO_PLAYING).1 rfl⟩,
    ⟨fun hx => hx, rfl,
      (C6_failures_short_circuit androidHeader parentFailsEnv readyElement
        GstStateChange.READY_TO_NULL).2 (fun hx => hx) (fun hx => absurd hx (by decide)) rfl⟩⟩

/-! ## Pad event handler -/

/-- C7 as stated fails: a flush-start event is none of caps, latency and reconfigure, and
the handler returns TRUE for it. -/
theorem C7_flush_start_is_accepted :
    ¬ (∀ e : GstEventType,
        gst_droidcamsrc_pad_event e = true ↔
          (e = GstEventType.CAPS ∨ e = GstEventType.LATENCY
            ∨ e = GstEventType.RECONFIGURE)) := by
  intro hall
  have hflush := (hall GstEventType.FLUSH_START).mp rfl
  revert hflush
  decide

/-- C7, amended: the handler returns TRUE exactly for the event kinds caps, latency,
reconfigure, flush-start and flush-stop, and FALSE for every other event kind. -/
theorem C7_pad_event_accepts_exactly (e : GstEventType) :
    gst_droidcamsrc_pad_event e = true ↔
      (e = GstEventType.CAPS ∨ e = GstEventType.LATENCY ∨ e = GstEventType.RECONFIGURE
        ∨ e = GstEventType.FLUSH_START ∨ e = GstEventType.FLUSH_STOP) := by
  cases e <;> simp [gst_droidcamsrc_pad_event]

/-! ## Port delivery loop -/

theorem pushes_append (xs ys : List PadCall) : pushes (xs ++ ys) = pushes xs ++ pushes ys := by
  induction xs with
  | nil => rfl
  | cons c cs ih => cases c <;> simp [pushes, ih]

theorem delivered_append (xs ys : List PadCall) :
    delivered (xs ++ ys) = delivered xs ++ delivered ys := by
  induction xs with
  | nil => rfl
  | cons c cs ih => cases c <;> simp [delivered, ih]

theorem pushes_map_push (bs : List GstBuffer) :
    pushes (bs.map PadCall.push) = bs.map PadCall.push := by
  induction bs with
  | nil => rfl
  | cons b bs ih => simp [pushes, ih]

theorem loop_negotiate_pushes (env : LoopEnv) (data : GstDroidCamSrcPad) :
    pushes (loop_negotiate env data).2 = [] ∧ delivered (loop_negotiate env data).2 = [] := by
  unfold loop_negotiate
  cases env.check_reconfigure <;> cases data.negotiate <;> exact ⟨rfl, rfl⟩

theorem loop_negotiate_congr (env : LoopEnv) (d d' : GstDroidCamSrcPad)
    (hn : d'.negotiate = d.negotiate) : loop_negotiate env d' = loop_negotiate env d := by
  simp [loop_negotiate, hn]

theorem loop_negotiate_no_wait (env : LoopEnv) (data : GstDroidCamSrcPad) :
    PadCall.cond_wait ∉ (loop_negotiate env data).2 := by
  unfold loop_negotiate
  cases env.check_reconfigure <;> cases data.negotiate <;> simp

/-- What `out:` does: both flags end FALSE, the events pushed are the pending ones, stream
start first, and the buffer follows; the rest of the port is untouched. -/
theorem loop_out_spec (data : GstDroidCamSrcPad) (buffer : GstBuffer) :
    (loop_out data buffer).1.open_stream = false
    ∧ (loop_out data buffer).1.open_segment = false
    ∧ (loop_out data buffer).1.queue = data.queue
    ∧ (loop_out data buffer).1.running = data.running
    ∧ (loop_out data buffer).1.caps = data.caps
    ∧ (loop_out data buffer).1.negotiate = data.negotiate
    ∧ delivered (loop_out data buffer).2 = [buffer]
    ∧ pushes (loop_out data buffer).2
        = (if data.open_stream then [PadCall.push_event_stream_start] else [])
          ++ (if data.open_segment then [PadCall.push_event_segment] else [])
          ++ [PadCall.push buffer]
    ∧ PadCall.cond_wait ∉ (loop_out data buffer).2 := by
  unfold loop_out
  cases hs : data.open_stream <;> cases hg : data.open_segment <;>
    simp [hs, hg, delivered, pushes]

/-! The five paths through one iteration. -/

theorem loop_not_running (env : LoopEnv) (d : GstDroidCamSrcPad) (hr : d.running = false) :
    gst_droidcamsrc_loop env d = (d, [PadCall.mutex_lock, PadCall.mutex_unlock]) := by
  simp [gst_droidcamsrc_loop, hr]

theorem loop_negotiation_fails (env : LoopEnv) (d : GstDroidCamSrcPad)
    (hr : d.running = true) (hn : (loop_negotiate env d).1 = false) :
    gst_droidcamsrc_loop env d
      = (d, [PadCall.mutex_lock] ++ (loop_negotiate env d).2
          ++ [PadCall.element_error, PadCall.pause_task, PadCall.mutex_unlock]) := by
  simp [gst_droidcamsrc_loop, hr, hn]

theorem loop_head (env : LoopEnv) (d : GstDroidCamSrcPad) (b : GstBuffer)
    (rest : List GstBuffer) (hr : d.running = true) (hn : (loop_negotiate env d).1 = true)
    (hq : d.queue = b :: rest) :
    gst_droidcamsrc_loop env d
      = ((loop_out { d with queue := rest } b).1,
          [PadCall.mutex_lock] ++ (loop_negotiate env d).2 ++ [PadCall.mutex_unlock]
            ++ (loop_out { d with queue := rest } b).2) := by
  simp [gst_droidcamsrc_loop, hr, hn, hq]

theorem loop_wait_buffer (env : LoopEnv) (d : GstDroidCamSrcPad) (b : GstBuffer)
    (rest : List GstBuffer) (hr : d.running = true) (hn : (loop_negotiate env d).1 = true)
    (hq : d.queue = []) (ha : env.arrivals = b :: rest) :
    gst_droidcamsrc_loop env d
      = ((loop_out { d with queue := rest, running := !env.deactivated } b).1,
          [PadCall.mutex_lock] ++ (loop_negotiate env d).2
            ++ [PadCall.cond_wait, PadCall.mutex_unlock]
            ++ (loop_out { d with queue := rest, running := !env.deactivated } b).2) := by
  simp [gst_droidcamsrc_loop, hr, hn, hq, ha]

theorem loop_wait_exit (env : LoopEnv) (d : GstDroidCamSrcPad)
    (hr : d.running = true) (hn : (loop_negotiate env d).1 = true)
    (hq : d.queue = []) (ha : env.arrivals = []) :
    gst_droidcamsrc_loop env d
      = ({ d with queue := [], running := !env.deactivated },
          [PadCall.mutex_lock] ++ (loop_negotiate env d).2
            ++ [PadCall.cond_wait, PadCall.mutex_unlock]) := by
  simp [gst_droidcamsrc_loop, hr, hn, hq, ha]

/-- One iteration either delivers nothing and leaves the bootstrap flags alone, or
delivers exactly the buffer at the head of the queue (as the queue is once the arrivals of
a wait are counted), after the pending bootstrap events, and clears both flags. -/
theorem loop_cases (env : LoopEnv) (d : GstDroidCamSrcPad) :
    (gst_droidcamsrc_loop env d).1.negotiate = d.negotiate
    ∧ ((delivered (gst_droidcamsrc_loop env d).2 = []
        ∧ pushes (gst_droidcamsrc_loop env d).2 = []
        ∧ (gst_droidcamsrc_loop env d).1.open_stream = d.open_stream
        ∧ (gst_droidcamsrc_loop env d).1.open_segment = d.open_segment
        ∧ (gst_droidcamsrc_loop env d).1.queue = d.queue ++ appended d (PortOp.loop env))
      ∨ ∃ b,
        delivered (gst_droidcamsrc_loop env d).2 = [b]
        ∧ pushes (gst_droidcamsrc_loop env d).2
            = (if d.open_stream then [PadCall.push_event_stream_start] else [])
              ++ (if d.open_segment then [PadCall.push_event_segment] else [])
              ++ [PadCall.push b]
        ∧ (gst_droidcamsrc_loop env d).1.open_stream = false
        ∧ (gst_droidcamsrc_loop env d).1.open_segment = false
        ∧ b :: (gst_droidcamsrc_loop env d).1.queue
            = d.queue ++ appended d (PortOp.loop env)) := by
  have hnp := loop_negotiate_pushes env d
  have hnw := loop_negotiate_no_wait env d
  have happ : appended d (PortOp.loop env)
      = if PadCall.cond_wait ∈ (gst_droidcamsrc_loop env d).2 then env.arrivals else [] := rfl
  rw [happ]
  cases hr : d.running with
  | false =>
    rw [loop_not_running env d hr]
    simp [delivered, pushes]
  | true =>
    cases hn : (loop_negotiate env d).1 with
    | false =>
      rw [loop_negotiation_fails env d hr hn]
      simp [delivered_append, pushes_append, hnp.1, hnp.2, hnw, delivered, pushes]
    | true =>
      cases hq : d.queue with
      | cons b rest =>
        obtain ⟨h1, h2, h3, _, _, h6, h7, h8, h9⟩ := loop_out_spec { d with queue := rest } b
        rw [loop_head env d b rest hr hn hq]
        refine ⟨h6, Or.inr ⟨b, ?_, ?_, h1, h2, ?_⟩⟩
        · simp [delivered_append, hnp.2, h7, delivered]
        · simp [pushes_append, hnp.1, h8, pushes]
        · simp [h3, hnw, h9]
      | nil =>
        cases ha : env.arrivals with
        | nil =>
          rw [loop_wait_exit env d hr hn hq ha]
          simp [delivered_append, pushes_append, hnp.1, hnp.2, delivered, pushes]
        | cons b rest =>
          obtain ⟨h1, h2, h3, _, _, h6, h7, h8, _⟩ :=
            loop_out_spec { d with queue := rest, running := !env.deactivated } b
          rw [loop_wait_buffer env d b rest hr hn hq ha]
          refine ⟨h6, Or.inr ⟨b, ?_, ?_, h1, h2, ?_⟩⟩
          · simp [delivered_append, hnp.2, h7, delivered]
          · simp [pushes_append, hnp.1, h8, pushes]
          · simp [h3]

/-! ## Runs of a port -/

theorem run_cons (op : PortOp) (ops : List PortOp) (d : GstDroidCamSrcPad) :
    run (op :: ops) d
      = ((run ops (step d op).1).1, (step d op).2 ++ (run ops (step d op).1).2.1,
          appended d op ++ (run ops (step d op).1).2.2) := rfl

theorem run_append (xs ys : List PortOp) (d : GstDroidCamSrcPad) :
    run (xs ++ ys) d
      = ((run ys (run xs d).1).1, (run xs d).2.1 ++ (run ys (run xs d).1).2.1,
          (run xs d).2.2 ++ (run ys (run xs d).1).2.2) := by
  induction xs generalizing d with
  | nil => rfl
  | cons op ops ih => simp [run_cons, ih]

/-- One step keeps the bootstrap invariant: either nothing has been delivered and both
flags are pending, or the pushes so far are one stream start, one segment and then the
delivered buffers only, and both flags are cleared. -/
theorem step_bootstrap (op : PortOp) (d : GstDroidCamSrcPad) (log : List PadCall)
    (hinv : (delivered log = [] ∧ pushes log = []
          ∧ d.open_stream = true ∧ d.open_segment = true)
        ∨ ∃ b bs, delivered log = b :: bs
          ∧ pushes log = PadCall.push_event_stream_start :: PadCall.push_event_segment
              :: (b :: bs).map PadCall.push
          ∧ d.open_stream = false ∧ d.open_segment = false) :
    (delivered (log ++ (step d op).2) = [] ∧ pushes (log ++ (step d op).2) = []
        ∧ (step d op).1.open_stream = true ∧ (step d op).1.open_segment = true)
      ∨ ∃ b bs, delivered (log ++ (step d op).2) = b :: bs
        ∧ pushes (log ++ (step d op).2)
            = PadCall.push_event_stream_start :: PadCall.push_event_segment
              :: (b :: bs).map PadCall.push
        ∧ (step d op).1.open_stream = false ∧ (step d op).1.open_segment = false := by
  cases op with
  | enqueue buffer =>
    have hd : delivered (step d (PortOp.enqueue buffer)).2 = [] := rfl
    have hp : pushes (step d (PortOp.enqueue buffer)).2 = [] := rfl
    have hs : (step d (PortOp.enqueue buffer)).1.open_stream = d.open_stream := rfl
    have hg : (step d (PortOp.enqueue buffer)).1.open_segment = d.open_segment := rfl
    rw [delivered_append, pushes_append, hd, hp, hs, hg]
    simpa using hinv
  | loop env =>
    have hstep : step d (PortOp.loop env) = gst_droidcamsrc_loop env d := rfl
    rw [hstep, delivered_append, pushes_append]
    rcases (loop_cases env d).2 with ⟨hd, hp, hs, hg, _⟩ | ⟨b', hd, hp, hs, hg, _⟩
    · rw [hd, hp, hs, hg]
      simpa using hinv
    · rcases hinv with ⟨hd0, hp0, hs0, hg0⟩ | ⟨b, bs, hd0, hp0, hs0, hg0⟩
      · refine Or.inr ⟨b', [], ?_, ?_, hs, hg⟩
        · simp [hd0, hd]
        · simp [hp0, hp, hs0, hg0]
      · refine Or.inr ⟨b, bs ++ [b'], ?_, ?_, hs, hg⟩
        · simp [hd0, hd]
        · simp [hp0, hp, hs0, hg0]

theorem run_bootstrap (ops : List PortOp) (d : GstDroidCamSrcPad) (log : List PadCall)
    (hinv : (delivered log = [] ∧ pushes log = []
          ∧ d.open_stream = true ∧ d.open_segment = true)
        ∨ ∃ b bs, delivered log = b :: bs
          ∧ pushes log = PadCall.push_event_stream_start :: PadCall.push_event_segment
              :: (b :: bs).map PadCall.push
          ∧ d.open_stream = false ∧ d.open_segment = false) :
    (delivered (log ++ (run ops d).2.1) = [] ∧ pushes (log ++ (run ops d).2.1) = []
        ∧ (run ops d).1.open_stream = true ∧ (run ops d).1.open_segment = true)
      ∨ ∃ b bs, delivered (log ++ (run ops d).2.1) = b :: bs
        ∧ pushes (log ++ (run ops d).2.1)
            = PadCall.push_event_stream_start :: PadCall.push_event_segment
              :: (b :: bs).map PadCall.push
        ∧ (run ops d).1.open_stream = false ∧ (run ops d).1.open_segment = false := by
  induction ops generalizing d log with
  | nil => simpa [run] using hinv
  | cons op ops ih =>
    have h1 := ih (step d op).1 (log ++ (step d op).2) (step_bootstrap op d log hinv)
    rw [run_cons]
    simpa [List.append_assoc] using h1

/-- C8: after a push-mode activate(true) on a port, whatever the task API answers, and
for every sequence of loop iterations and enqueues that follows in the same activation:
either no buffer has been delivered, nothing has been pushed and both bootstrap flags are
still pending; or the pushes are exactly one stream-start event, then exactly one segment
event, then the delivered buffers and nothing else, and both flags are FALSE. So the first
delivering iteration pushes the two events before its buffer and every later one pushes
only its buffer. -/
theorem C8_bootstrap_events_precede_first_buffer_only (env : ActivateEnv)
    (data : GstDroidCamSrcPad) (ops : List PortOp) :
    ∃ d, (gst_droidcamsrc_pad_activate_mode env (some data) GstPadMode.PUSH true).2.1 = some d
      ∧ d.running = true ∧ d.open_stream = true ∧ d.open_segment = true
      ∧ ((delivered (run ops d).2.1 = [] ∧ pushes (run ops d).2.1 = []
            ∧ (run ops d).1.open_stream = true ∧ (run ops d).1.open_segment = true)
          ∨ ∃ b bs, delivered (run ops d).2.1 = b :: bs
            ∧ pushes (run ops d).2.1
                = PadCall.push_event_stream_start :: PadCall.push_event_segment
                  :: (b :: bs).map PadCall.push
            ∧ (run ops d).1.open_stream = false ∧ (run ops d).1.open_segment = false) := by
  refine ⟨{ data with running := true, open_stream := true, open_segment := true },
    ?_, rfl, rfl, rfl, ?_⟩
  · cases hst : env.start_task <;> simp [gst_droidcamsrc_pad_activate_mode, hst]
  · have h := run_bootstrap ops
      { data with running := true, open_stream := true, open_segment := true } []
      (Or.inl ⟨rfl, rfl, rfl, rfl⟩)
    simpa using h

/-- One step hands over what it delivers from the head: the buffers delivered, followed by
the queue afterwards, are the queue before followed by what reached its tail. -/
theorem step_fifo (op : PortOp) (d : GstDroidCamSrcPad) :
    delivered (step d op).2 ++ (step d op).1.queue = d.queue ++ appended d op := by
  cases op with
  | enqueue buffer => rfl
  | loop env =>
    have hstep : step d (PortOp.loop env) = gst_droidcamsrc_loop env d := rfl
    rw [hstep]
    rcases (loop_cases env d).2 with ⟨hd, _, _, _, hq⟩ | ⟨b, hd, _, _, _, hq⟩
    · rw [hd, hq]; rfl
    · rw [hd, ← hq]; rfl

theorem run_fifo (ops : List PortOp) (d : GstDroidCamSrcPad) :
    delivered (run ops d).2.1 ++ (run ops d).1.queue = d.queue ++ (run ops d).2.2 := by
  induction ops generalizing d with
  | nil => simp [run, delivered]
  | cons op ops ih =>
    rw [run_cons]
    simp only [delivered_append, List.append_assoc]
    rw [ih (step d op).1, ← List.append_assoc, step_fifo op d, List.append_assoc]

theorem run_enqueues (bs : List GstBuffer) (d : GstDroidCamSrcPad) :
    (run (bs.map PortOp.enqueue) d).1 = { d with queue := d.queue ++ bs }
    ∧ delivered (run (bs.map PortOp.enqueue) d).2.1 = [] := by
  induction bs generalizing d with
  | nil => simp [run, delivered]
  | cons b bs ih =>
    have hs : step d (PortOp.enqueue b)
        = ({ d with queue := d.queue ++ [b] },
            [PadCall.mutex_lock, PadCall.cond_signal, PadCall.mutex_unlock]) := rfl
    obtain ⟨h1, h2⟩ := ih { d with queue := d.queue ++ [b] }
    simp only [List.map_cons, run_cons, hs, h1, h2, delivered_append]
    simp [delivered]

theorem run_loops (envs : List LoopEnv) (d : GstDroidCamSrcPad) (hr : d.running = true)
    (hn : ∀ e ∈ envs, (loop_negotiate e d).1 = true)
    (hlen : envs.length ≤ d.queue.length) :
    delivered (run (envs.map PortOp.loop) d).2.1 = d.queue.take envs.length
    ∧ (run (envs.map PortOp.loop) d).1.queue = d.queue.drop envs.length := by
  induction envs generalizing d with
  | nil => simp [run, delivered]
  | cons e es ih =>
    cases hq : d.queue with
    | nil => simp [hq] at hlen
    | cons b rest =>
      obtain ⟨_, _, h3, h4, _, h6, h7, _, _⟩ := loop_out_spec { d with queue := rest } b
      have hne : (loop_negotiate e d).1 = true := hn e (List.mem_cons_self _ _)
      have hs : step d (PortOp.loop e) = gst_droidcamsrc_loop e d := rfl
      have hlen' : es.length ≤ rest.length := by
        simpa [hq] using hlen
      have ih' := ih (loop_out { d with queue := rest } b).1 (by rw [h4]; exact hr)
        (fun e' he' => by
          rw [loop_negotiate_congr e' d _ h6]
          exact hn e' (List.mem_cons_of_mem _ he'))
        (by rw [h3]; exact hlen')
      rw [h3] at ih'
      simp only [List.map_cons, run_cons, hs, loop_head e d b rest hr hne hq,
        delivered_append, (loop_negotiate_pushes e d).2, h7, ih'.1, ih'.2]
      simp [delivered]

/-- C9: (1) on a running port, after the buffers `bs` have been appended to the tail of
the queue, `n` successive loop iterations whose negotiation does not fail, with `n` at most
the number of queued buffers, deliver exactly the first `n` buffers of the queue in queue
order and leave the remaining ones in the queue in their order; (2) for every
interleaving of enqueues and loop iterations on any port, the buffers delivered so far,
followed by the buffers still queued, are the buffers that were queued at the start
followed by the buffers that reached the tail since, in that order. -/
theorem C9_delivery_is_fifo (d : GstDroidCamSrcPad) (bs : List GstBuffer)
    (envs : List LoopEnv) (ops : List PortOp) :
    (d.running = true → (∀ e ∈ envs, (loop_negotiate e d).1 = true) →
      envs.length ≤ (d.queue ++ bs).length →
      delivered (run (bs.map PortOp.enqueue ++ envs.map PortOp.loop) d).2.1
          = (d.queue ++ bs).take envs.length
        ∧ (run (bs.map PortOp.enqueue ++ envs.map PortOp.loop) d).1.queue
          = (d.queue ++ bs).drop envs.length)
    ∧ delivered (run ops d).2.1 ++ (run ops d).1.queue = d.queue ++ (run ops d).2.2 := by
  refine ⟨?_, run_fifo ops d⟩
  intro hr hn hlen
  obtain ⟨h1, h2⟩ := run_enqueues bs d
  have hl := run_loops envs { d with queue := d.queue ++ bs } hr
    (fun e he => by
      rw [loop_negotiate_congr e d { d with queue := d.queue ++ bs } rfl]
      exact hn e he)
    hlen
  rw [run_append, h1]
  simp only [delivered_append, h2, List.nil_append]
  exact hl

/-- C9 on an active port: three buffers enqueued, then three iterations. -/
theorem C9_delivery_is_fifo_example :
    activePort.running = true
    ∧ delivered (run ([7, 8, 9].map PortOp.enqueue
          ++ [quietLoopEnv, quietLoopEnv, quietLoopEnv].map PortOp.loop) activePort).2.1
        = [7, 8, 9]
    ∧ (run ([7, 8, 9].map PortOp.enqueue
          ++ [quietLoopEnv, quietLoopEnv, quietLoopEnv].map PortOp.loop) activePort).1.queue
        = [] :=
  ⟨rfl,
    (C9_delivery_is_fifo activePort [7, 8, 9] [quietLoopEnv, quietLoopEnv, quietLoopEnv]
      []).1 rfl (by decide) (by decide)⟩

/-! ## Deactivation -/

theorem released_map_buffer_unref (bs : List GstBuffer) (cs : List PadCall) :
    released (bs.map PadCall.buffer_unref ++ cs) = bs ++ released cs := by
  induction bs with
  | nil => rfl
  | cons b bs ih => simp [released, ih]

theorem released_caps_map_buffer_unref (bs : List GstBuffer) (cs : List PadCall) :
    released_caps (bs.map PadCall.buffer_unref ++ cs) = released_caps cs := by
  induction bs with
  | nil => rfl
  | cons b bs ih => simp [released_caps, ih]

/-- C10: a push-mode activate(false) on a port returns exactly what stopping the task
returned, and, whether or not the task stopped: `running` is FALSE, the queue is empty,
the cached caps are NULL, the buffers released are exactly the buffers that were queued,
each once and in queue order (so `N` releases for `N` queued buffers), and the cached
format, if there was one, is released once. -/
theorem C10_deactivate_drains_port (env : ActivateEnv) (data : GstDroidCamSrcPad) :
    (gst_droidcamsrc_pad_activate_mode env (some data) GstPadMode.PUSH false).1
        = env.stop_task
    ∧ ∃ d, (gst_droidcamsrc_pad_activate_mode env (some data) GstPadMode.PUSH false).2.1
          = some d
      ∧ d.running = false ∧ d.queue = [] ∧ d.caps = none
      ∧ released (gst_droidcamsrc_pad_activate_mode env (some data)
          GstPadMode.PUSH false).2.2 = data.queue
      ∧ (released (gst_droidcamsrc_pad_activate_mode env (some data)
          GstPadMode.PUSH false).2.2).length = data.queue.length
      ∧ released_caps (gst_droidcamsrc_pad_activate_mode env (some data)
          GstPadMode.PUSH false).2.2 = data.caps.toList := by
  have hrel : ∀ cs : List PadCall,
      released ([PadCall.mutex_lock, PadCall.cond_signal, PadCall.mutex_unlock,
        PadCall.stop_task, PadCall.mutex_lock] ++ cs) = released cs := fun _ => rfl
  have hrelc : ∀ cs : List PadCall,
      released_caps ([PadCall.mutex_lock, PadCall.cond_signal, PadCall.mutex_unlock,
        PadCall.stop_task, PadCall.mutex_lock] ++ cs) = released_caps cs := fun _ => rfl
  cases hc : data.caps with
  | none =>
    refine ⟨?_, { data with running := false, queue := [] }, ?_, rfl, rfl, ?_, ?_, ?_, ?_⟩
    · cases hst : env.stop_task <;> simp [gst_droidcamsrc_pad_activate_mode, hst]
    · simp [gst_droidcamsrc_pad_activate_mode, hc]
    · simpa using hc
    · simp only [gst_droidcamsrc_pad_activate_mode, hc]
      simp [hrel, released_map_buffer_unref, released]
    · simp only [gst_droidcamsrc_pad_activate_mode, hc]
      simp [hrel, released_map_buffer_unref, released]
    · simp only [gst_droidcamsrc_pad_activate_mode, hc]
      simp [hrelc, released_caps_map_buffer_unref, released_caps]
  | some caps =>
    refine ⟨?_, { data with running := false, queue := [], caps := none }, ?_, rfl, rfl,
      rfl, ?_, ?_, ?_⟩
    · cases hst : env.stop_task <;> simp [gst_droidcamsrc_pad_activate_mode, hst]
    · simp [gst_droidcamsrc_pad_activate_mode, hc]
    · simp only [gst_droidcamsrc_pad_activate_mode, hc]
      simp [hrel, released_map_buffer_unref, released]
    · simp only [gst_droidcamsrc_pad_activate_mode, hc]
      simp [hrel, released_map_buffer_unref, released]
    · simp only [gst_droidcamsrc_pad_activate_mode, hc]
      simp [hrelc, released_caps_map_buffer_unref, released_caps]

/-! ## Exit of a blocked loop -/

/-- The handler's deactivation is its first critical section followed by the stop of the
task and the drain. -/
theorem activate_mode_false_split (env : ActivateEnv) (d : GstDroidCamSrcPad) :
    gst_droidcamsrc_pad_activate_mode env (some d) GstPadMode.PUSH false
      = ((activate_mode_drain env (activate_mode_signal d false).1).1,
          some (activate_mode_drain env (activate_mode_signal d false).1).2.1,
          (activate_mode_signal d false).2
            ++ (activate_mode_drain env (activate_mode_signal d false).1).2.2) := by
  cases hc : d.caps <;>
    simp [gst_droidcamsrc_pad_activate_mode, activate_mode_drain, activate_mode_signal, hc]

/-- An iteration that reaches `g_cond_wait` is its calls up to the wait, followed by the
part after the wake-up run on the port as the other threads left it. -/
theorem loop_wait_split (env : LoopEnv) (d : GstDroidCamSrcPad)
    (hr : d.running = true) (hn : (loop_negotiate env d).1 = true) (hq : d.queue = []) :
    gst_droidcamsrc_loop env d
      = ((loop_after_wake
            { d with queue := d.queue ++ env.arrivals,
                     running := d.running && !env.deactivated }).1,
          [PadCall.mutex_lock] ++ (loop_negotiate env d).2 ++ [PadCall.cond_wait]
            ++ (loop_after_wake
                { d with queue := d.queue ++ env.arrivals,
                         running := d.running && !env.deactivated }).2) := by
  cases ha : env.arrivals with
  | nil =>
    rw [loop_wait_exit env d hr hn hq ha]
    simp [loop_after_wake, hq, hr]
  | cons b rest =>
    rw [loop_wait_buffer env d b rest hr hn hq ha]
    simp [loop_after_wake, hq, hr]

/-- C11: (1) a loop iteration on a running port whose negotiation does not fail, that finds
the queue empty, waits, and is woken with nothing enqueued meanwhile, makes these calls
only: lock, the reconfigure check (and negotiation), the wait, unlock. It pushes no
stream-start event, no segment event and no buffer, leaves `open_stream` and
`open_segment` as they were, and its last call releases the port lock; when the wake-up
came from a deactivation, `running` is FALSE afterwards and every further iteration
returns at once. (2) An iteration entered with `running == FALSE` locks, unlocks and
returns with the port, its queue included, untouched. (3) The push-mode activate(false)
of `gst_droidcamsrc_pad_activate_mode` is its first critical section, which clears
`running` and signals the condition under the lock, followed by the stop of the task and
the drain: its first four calls are lock, signal, unlock, stop of the task, so the signal
precedes the join. (4) When that deactivation meets a loop blocked on an empty queue, the
iteration is the one of (1) with the port as the first critical section left it; the
signal wakes the loop, so the join is not left waiting; the loop only releases the lock,
and the handler ends as it does when run alone: it returns what stopping the task
returned, `running` is FALSE, queue and caps are empty, and no buffer is released. -/
theorem C11_blocked_loop_exits_without_delivery (env : LoopEnv) (aenv : ActivateEnv)
    (d : GstDroidCamSrcPad) :
    (d.running = true → (loop_negotiate env d).1 = true → d.queue = [] →
      env.arrivals = [] →
      (gst_droidcamsrc_loop env d).2
          = [PadCall.mutex_lock] ++ (loop_negotiate env d).2
            ++ [PadCall.cond_wait, PadCall.mutex_unlock]
        ∧ pushes (gst_droidcamsrc_loop env d).2 = []
        ∧ delivered (gst_droidcamsrc_loop env d).2 = []
        ∧ (gst_droidcamsrc_loop env d).1.open_stream = d.open_stream
        ∧ (gst_droidcamsrc_loop env d).1.open_segment = d.open_segment
        ∧ (gst_droidcamsrc_loop env d).1.queue = []
        ∧ (gst_droidcamsrc_loop env d).2.getLast? = some PadCall.mutex_unlock
        ∧ (env.deactivated = true →
            (gst_droidcamsrc_loop env d).1.running = false
            ∧ ∀ env' : LoopEnv,
                gst_droidcamsrc_loop env' (gst_droidcamsrc_loop env d).1
                  = ((gst_droidcamsrc_loop env d).1,
                      [PadCall.mutex_lock, PadCall.mutex_unlock])))
    ∧ (d.running = false →
        gst_droidcamsrc_loop env d = (d, [PadCall.mutex_lock, PadCall.mutex_unlock]))
    ∧ (gst_droidcamsrc_pad_activate_mode aenv (some d) GstPadMode.PUSH false
          = ((activate_mode_drain aenv (activate_mode_signal d false).1).1,
              some (activate_mode_drain aenv (activate_mode_signal d false).1).2.1,
              (activate_mode_signal d false).2
                ++ (activate_mode_drain aenv (activate_mode_signal d false).1).2.2)
        ∧ (activate_mode_signal d false).1 = { d with running := false }
        ∧ (gst_droidcamsrc_pad_activate_mode aenv (some d) GstPadMode.PUSH false).2.2.take 4
          = [PadCall.mutex_lock, PadCall.cond_signal, PadCall.mutex_unlock,
              PadCall.stop_task])
    ∧ (d.running = true → (loop_negotiate env d).1 = true → d.queue = [] →
        gst_droidcamsrc_loop { env with arrivals := [], deactivated := true } d
            = ((loop_after_wake (activate_mode_signal d false).1).1,
                [PadCall.mutex_lock] ++ (loop_negotiate env d).2 ++ [PadCall.cond_wait]
                  ++ (loop_after_wake (activate_mode_signal d false).1).2)
          ∧ deactivate_blocked_loop aenv d
            = some (aenv.stop_task, { d with running := false, queue := [], caps := none },
                [PadCall.mutex_unlock],
                (gst_droidcamsrc_pad_activate_mode aenv (some d) GstPadMode.PUSH false).2.2)
          ∧ (gst_droidcamsrc_pad_activate_mode aenv (some d) GstPadMode.PUSH false).1
            = aenv.stop_task
          ∧ (gst_droidcamsrc_pad_activate_mode aenv (some d) GstPadMode.PUSH false).2.1
            = some { d with running := false, queue := [], caps := none }
          ∧ released
              (gst_droidcamsrc_pad_activate_mode aenv (some d) GstPadMode.PUSH false).2.2
            = []) := by
  refine ⟨?_, loop_not_running env d, ⟨activate_mode_false_split aenv d, rfl, ?_⟩, ?_⟩
  · intro hr hn hq ha
    have hnp := loop_negotiate_pushes env d
    rw [loop_wait_exit env d hr hn hq ha]
    refine ⟨rfl, ?_, ?_, rfl, rfl, rfl, ?_, ?_⟩
    · simp [pushes_append, hnp.1, pushes]
    · simp [delivered_append, hnp.2, delivered]
    · have hsplit : [PadCall.mutex_lock] ++ (loop_negotiate env d).2
            ++ [PadCall.cond_wait, PadCall.mutex_unlock]
          = ([PadCall.mutex_lock] ++ (loop_negotiate env d).2 ++ [PadCall.cond_wait])
            ++ [PadCall.mutex_unlock] := by simp
      show ([PadCall.mutex_lock] ++ (loop_negotiate env d).2
          ++ [PadCall.cond_wait, PadCall.mutex_unlock]).getLast? = some PadCall.mutex_unlock
      rw [hsplit, List.getLast?_concat]
    · intro hde
      refine ⟨by simp [hde], fun env' => ?_⟩
      exact loop_not_running env' _ (by simp [hde])
  · rw [activate_mode_false_split]
    simp [activate_mode_signal, activate_mode_drain]
  · intro hr hn hq
    have hstop : (if aenv.stop_task = false then false else true) = aenv.stop_task := by
      cases aenv.stop_task <;> rfl
    refine ⟨?_, ?_, ?_, ?_, ?_⟩
    · have hsplit := loop_wait_split { env with arrivals := [], deactivated := true } d hr hn hq
      rw [hsplit]
      simp [activate_mode_signal, hr, loop_negotiate]
    · rw [activate_mode_false_split]
      cases hc : d.caps <;>
        simp [deactivate_blocked_loop, activate_mode_signal, activate_mode_drain,
          loop_after_wake, hq, hc, hstop]
    · rw [activate_mode_false_split]
      simp [activate_mode_drain, hstop]
    · rw [activate_mode_false_split]
      cases hc : d.caps <;> simp [activate_mode_signal, activate_mode_drain, hc]
    · rw [activate_mode_false_split]
      cases hc : d.caps <;>
        simp [activate_mode_signal, activate_mode_drain, hc, hq, released]

/-- C11 on an active port with an empty queue that is deactivated while its loop waits,
and on a port that is not running. -/
theorem C11_blocked_loop_example :
    (pushes (gst_droidcamsrc_loop { quietLoopEnv with deactivated := true } activePort).2 = []
      ∧ (gst_droidcamsrc_loop { quietLoopEnv with deactivated := true } activePort).2
          = [PadCall.mutex_lock, PadCall.check_reconfigure, PadCall.cond_wait,
              PadCall.mutex_unlock]
      ∧ (gst_droidcamsrc_loop { quietLoopEnv with deactivated := true } activePort).1.running
          = false)
    ∧ gst_droidcamsrc_loop quietLoopEnv { activePort with running := false, queue := [3] }
        = ({ activePort with running := false, queue := [3] },
            [PadCall.mutex_lock, PadCall.mutex_unlock])
    ∧ deactivate_blocked_loop { start_task := true, stop_task := true } activePort
        = some (true, { activePort with running := false },
            [PadCall.mutex_unlock],
            [PadCall.mutex_lock, PadCall.cond_signal, PadCall.mutex_unlock,
              PadCall.stop_task, PadCall.mutex_lock, PadCall.mutex_unlock]) :=
  ⟨match (C11_blocked_loop_exits_without_delivery { quietLoopEnv with deactivated := true }
        { start_task := true, stop_task := true } activePort).1 rfl rfl rfl rfl with
    | ⟨hlog, hpush, _, _, _, _, _, hde⟩ => ⟨hpush, hlog, (hde rfl).1⟩,
    (C11_blocked_loop_exits_without_delivery quietLoopEnv
      { start_task := true, stop_task := true }
      { activePort with running := false, queue := [3] }).2.1 rfl,
    ((C11_blocked_loop_exits_without_delivery quietLoopEnv
      { start_task := true, stop_task := true } activePort).2.2.2 rfl rfl rfl).2.1⟩

/-! ## Quirks -/

/-- A section of type property (type absent or anything but "command") that lacks one of
`prop`, `on`, `off` yields no quirk. -/
theorem quirk_new_incomplete_property (file : GKeyFile) (group : String)
    (htype : file.get_value group "type" ≠ some "command")
    (hmiss : file.get_value group "prop" = none ∨ file.get_value group "on" = none
      ∨ file.get_value group "off" = none) :
    gst_droidcamsrc_quirk_new file group = none := by
  simp [gst_droidcamsrc_quirk_new, htype, hmiss]

/-- The table holds one entry per known quirk id, in this order, a `NULL` entry for a
section that yielded no quirk. -/
theorem quirks_new_entries (file : GKeyFile) :
    (gst_droidcamsrc_quirks_new file).quirks
      = [gst_droidcamsrc_quirk_new file "face-detection",
         gst_droidcamsrc_quirk_new file "image-noise-reduction"] := rfl

theorem g_strcmp0_eq_zero (a b : String) : g_strcmp0 a b = 0 ↔ a = b := by
  unfold g_strcmp0
  by_cases hab : a = b
  · simp [hab]
  · by_cases hlt : a < b <;> simp [hab, hlt]

theorem find_quirk_nil (quirk_id : String) :
    g_list_find_custom _find_quirk [] quirk_id = some [] := rfl

theorem find_quirk_cons_null (l : List (Option GstDroidCamSrcQuirk)) (quirk_id : String) :
    g_list_find_custom _find_quirk (none :: l) quirk_id = none := rfl

theorem find_quirk_cons_loaded (q : GstDroidCamSrcQuirk)
    (l : List (Option GstDroidCamSrcQuirk)) (quirk_id : String) :
    g_list_find_custom _find_quirk (some q :: l) quirk_id
      = if q.id = quirk_id then some (some q :: l)
        else g_list_find_custom _find_quirk l quirk_id := by
  by_cases hq : q.id = quirk_id
  · subst hq
    have h0 : g_strcmp0 q.id q.id = 0 := (g_strcmp0_eq_zero _ _).mpr rfl
    simp [g_list_find_custom, _find_quirk, h0]
  · have h0 : ¬ g_strcmp0 q.id quirk_id = 0 := fun h => hq ((g_strcmp0_eq_zero _ _).mp h)
    simp [g_list_find_custom, _find_quirk, h0, hq]

/-- The table of the well-formed key file. -/
theorem quirks_new_wellFormedKeyFile :
    (gst_droidcamsrc_quirks_new wellFormedKeyFile).quirks
      = [some { direction := 1, id := "face-detection",
                type := GstDRoidCamSrcQuirkType.GST_DROID_CAM_SRC_QUIRK_COMMAND,
                prop := none, on_ := none, off := none,
                command_enable := 1, command_disable := 2, arg1_enable := 3,
                arg2_enable := 4, arg1_disable := 5, arg2_disable := 6 },
         some { direction := -1, id := "image-noise-reduction",
                type := GstDRoidCamSrcQuirkType.GST_DROID_CAM_SRC_QUIRK_PROPERTY,
                prop := some "denoise", on_ := some "denoise-on",
                off := some "denoise-off",
                command_enable := 0, command_disable := 0, arg1_enable := 0,
                arg2_enable := 0, arg1_disable := 0, arg2_disable := 0 }] := by
  decide

/-- A lookup never returns a node whose entry is `NULL`, so the "quirk not known" return
of `gst_droidcamsrc_quirks_apply` is never taken; and the entry of the node it returns
has the id looked for. -/
theorem find_quirk_node_is_loaded (list : List (Option GstDroidCamSrcQuirk))
    (quirk_id : String) (data : Option GstDroidCamSrcQuirk)
    (rest : List (Option GstDroidCamSrcQuirk))
    (hfind : g_list_find_custom _find_quirk list quirk_id = some (data :: rest)) :
    ∃ quirk, data = some quirk ∧ quirk.id = quirk_id ∧ some quirk ∈ list := by
  induction list with
  | nil => simp [g_list_find_custom] at hfind
  | cons a l ih =>
    cases a with
    | none => simp [g_list_find_custom, _find_quirk] at hfind
    | some q =>
      by_cases hq : q.id = quirk_id
      · have h0 : g_strcmp0 q.id quirk_id = 0 := (g_strcmp0_eq_zero _ _).mpr hq
        simp [g_list_find_custom, _find_quirk, h0] at hfind
        exact ⟨q, hfind.1.symm, hq, by simp⟩
      · have h0 : ¬ g_strcmp0 q.id quirk_id = 0 := fun h => hq ((g_strcmp0_eq_zero _ _).mp h)
        simp [g_list_find_custom, _find_quirk, h0] at hfind
        obtain ⟨quirk, h1, h2, h3⟩ := ih hfind
        exact ⟨quirk, h1, h2, by simp [h3]⟩

/-- When the table holds no loaded quirk with the id looked for, the lookup either walks
into a `NULL` entry or returns `NULL`. -/
theorem find_quirk_without_loaded_quirk (list : List (Option GstDroidCamSrcQuirk))
    (quirk_id : String) (hno : ∀ q, some q ∈ list → q.id ≠ quirk_id) :
    g_list_find_custom _find_quirk list quirk_id = none
      ∨ g_list_find_custom _find_quirk list quirk_id = some [] := by
  induction list with
  | nil => exact Or.inr rfl
  | cons a l ih =>
    cases a with
    | none => exact Or.inl rfl
    | some q =>
      have hq : q.id ≠ quirk_id := hno q (by simp)
      have h0 : ¬ g_strcmp0 q.id quirk_id = 0 := fun h => hq ((g_strcmp0_eq_zero _ _).mp h)
      have ih' := ih (fun q' hq' => hno q' (by simp [hq']))
      simpa [g_list_find_custom, _find_quirk, h0] using ih'

/-- For every table and every id that has no loaded quirk in it, applying the quirk
dereferences `NULL`, whatever the direction and the element. -/
theorem apply_without_loaded_quirk (quirks : GstDroidCamSrcQuirks) (src : GstDroidCamSrc)
    (direction : Int) (quirk_id : String) (enable : Bool)
    (hno : ∀ q, some q ∈ quirks.quirks → q.id ≠ quirk_id) :
    gst_droidcamsrc_quirks_apply quirks src direction quirk_id enable = none := by
  unfold gst_droidcamsrc_quirks_apply
  rcases find_quirk_without_loaded_quirk quirks.quirks quirk_id hno with h | h <;> rw [h]

/-- Every lookup in a table that starts with a `NULL` entry dereferences it. -/
theorem apply_behind_null_entry (quirks : GstDroidCamSrcQuirks) (src : GstDroidCamSrc)
    (direction : Int) (quirk_id : String) (enable : Bool)
    (rest : List (Option GstDroidCamSrcQuirk)) (hnull : quirks.quirks = none :: rest) :
    gst_droidcamsrc_quirks_apply quirks src direction quirk_id enable = none := by
  simp [gst_droidcamsrc_quirks_apply, hnull, g_list_find_custom, _find_quirk]

/-- C12 (the code at the failing input): a key file whose `[face-detection]` section is
of type property and lacks `on`, and whose `[image-noise-reduction]` section is
well-formed. No quirk is built for face-detection, and the sibling is loaded into the
table behind the `NULL` entry of the dropped one; but applying the sibling dereferences
that `NULL` entry in `_find_quirk` before the sibling is reached, so the table is not
usable. -/
theorem C12_sibling_behind_dropped_entry_is_unusable :
    gst_droidcamsrc_quirk_new faceDetectionIncompleteKeyFile "face-detection" = none
    ∧ (gst_droidcamsrc_quirks_new faceDetectionIncompleteKeyFile).quirks
        = [none,
           some { direction := -1, id := "image-noise-reduction",
                  type := GstDRoidCamSrcQuirkType.GST_DROID_CAM_SRC_QUIRK_PROPERTY,
                  prop := some "denoise", on_ := some "denoise-on",
                  off := some "denoise-off",
                  command_enable := 0, command_disable := 0, arg1_enable := 0,
                  arg2_enable := 0, arg1_disable := 0, arg2_disable := 0 }]
    ∧ gst_droidcamsrc_quirks_apply (gst_droidcamsrc_quirks_new faceDetectionIncompleteKeyFile)
        readyElement 0 "image-noise-reduction" true = none := by
  decide

/-- C13: when the lookup by id returns a node holding a loaded quirk and the element has
its device handle, `gst_droidcamsrc_quirks_apply` makes one call if the quirk's direction
equals the requested direction or is -1, and no call otherwise. The one call is, for a
property quirk, the parameter set of the quirk's `prop` to its `on` string when `enable`
is true and to its `off` string otherwise; for a command quirk, the device command with
the enable triple when `enable` is true and the disable triple otherwise. -/
theorem C13_apply_acts_iff_direction_matches (quirks : GstDroidCamSrcQuirks)
    (src : GstDroidCamSrc) (direction : Int) (quirk_id : String) (enable : Bool)
    (quirk : GstDroidCamSrcQuirk) (rest : List (Option GstDroidCamSrcQuirk))
    (dev : GstDroidCamSrcDev)
    (hfind : g_list_find_custom _find_quirk quirks.quirks quirk_id
      = some (some quirk :: rest))
    (hdev : src.dev = some dev) :
    quirk.id = quirk_id
    ∧ gst_droidcamsrc_quirks_apply quirks src direction quirk_id enable
      = some
          (if quirk.direction = direction ∨ quirk.direction = -1 then
            [if quirk.type = GstDRoidCamSrcQuirkType.GST_DROID_CAM_SRC_QUIRK_PROPERTY then
                QuirkCall.params_set_string quirk.prop
                  (if enable then quirk.on_ else quirk.off)
              else
                QuirkCall.dev_send_command
                  (if enable then quirk.command_enable else quirk.command_disable)
                  (if enable then quirk.arg1_enable else quirk.arg1_disable)
                  (if enable then quirk.arg2_enable else quirk.arg2_disable)]
          else []) := by
  obtain ⟨q, hq, hid, _⟩ := find_quirk_node_is_loaded _ _ _ _ hfind
  have hqq : q = quirk := (Option.some.inj hq).symm
  subst hqq
  refine ⟨hid, ?_⟩
  unfold gst_droidcamsrc_quirks_apply
  rw [hfind]
  by_cases hd : q.direction = direction ∨ q.direction = -1
  · cases enable <;>
      by_cases ht : q.type = GstDRoidCamSrcQuirkType.GST_DROID_CAM_SRC_QUIRK_PROPERTY <;>
      simp [hd, ht, hdev]
  · simp [hd]

/-- C13 on the table of a well-formed key file: the property quirk image-noise-reduction,
whose direction is -1, is enabled for direction 0 by one parameter set of "denoise" to
"denoise-on". -/
theorem C13_apply_example :
    readyElement.dev = some { pool_pad := none }
    ∧ g_list_find_custom _find_quirk (gst_droidcamsrc_quirks_new wellFormedKeyFile).quirks
        "image-noise-reduction"
      = some [some { direction := -1, id := "image-noise-reduction",
                     type := GstDRoidCamSrcQuirkType.GST_DROID_CAM_SRC_QUIRK_PROPERTY,
                     prop := some "denoise", on_ := some "denoise-on",
                     off := some "denoise-off",
                     command_enable := 0, command_disable := 0, arg1_enable := 0,
                     arg2_enable := 0, arg1_disable := 0, arg2_disable := 0 }]
    ∧ gst_droidcamsrc_quirks_apply (gst_droidcamsrc_quirks_new wellFormedKeyFile)
        readyElement 0 "image-noise-reduction" true
      = some [QuirkCall.params_set_string (some "denoise") (some "denoise-on")] :=
  ⟨rfl, by simp [quirks_new_wellFormedKeyFile, find_quirk_cons_loaded],
    (C13_apply_acts_iff_direction_matches (gst_droidcamsrc_quirks_new wellFormedKeyFile)
      readyElement 0 "image-noise-reduction" true
      { direction := -1, id := "image-noise-reduction",
        type := GstDRoidCamSrcQuirkType.GST_DROID_CAM_SRC_QUIRK_PROPERTY,
        prop := some "denoise", on_ := some "denoise-on", off := some "denoise-off",
        command_enable := 0, command_disable := 0, arg1_enable := 0,
        arg2_enable := 0, arg1_disable := 0, arg2_disable := 0 }
      [] { pool_pad := none }
      (by simp [quirks_new_wellFormedKeyFile, find_quirk_cons_loaded]) rfl).2⟩

/-- C14 (the code at the failing inputs): on the table of a well-formed key file, applying
the id "hdr", which was never registered, makes the lookup return `NULL`, and
`gst_droidcamsrc_quirks_apply` dereferences it in `->data`; on the table of a key file
whose `[face-detection]` section was dropped, applying "face-detection" dereferences the
`NULL` entry in `_find_quirk`. Neither reaches the "quirk not known" return. -/
theorem C14_apply_of_unknown_quirk_dereferences_null :
    gst_droidcamsrc_quirks_apply (gst_droidcamsrc_quirks_new wellFormedKeyFile)
        readyElement 0 "hdr" true = none
    ∧ g_list_find_custom _find_quirk (gst_droidcamsrc_quirks_new wellFormedKeyFile).quirks
        "hdr" = some []
    ∧ gst_droidcamsrc_quirks_apply (gst_droidcamsrc_quirks_new faceDetectionIncompleteKeyFile)
        readyElement 0 "face-detection" true = none
    ∧ g_list_find_custom _find_quirk
        (gst_droidcamsrc_quirks_new faceDetectionIncompleteKeyFile).quirks
        "face-detection" = none := by
  have hfind : g_list_find_custom _find_quirk
      (gst_droidcamsrc_quirks_new wellFormedKeyFile).quirks "hdr" = some [] := by
    simp [quirks_new_wellFormedKeyFile, find_quirk_cons_loaded, find_quirk_nil]
  refine ⟨?_, hfind, by decide, by decide⟩
  unfold gst_droidcamsrc_quirks_apply
  rw [hfind]

/-! ## Viewfinder negotiation -/

/-- C15: `gst_droidcamsrc_vfsrc_negotiate` returns FALSE whatever the viewfinder caps
and the peer's caps are; and every loop iteration on a running port whose negotiation
callback it is, and that finds a reconfigure pending, raises the element error, pauses
the task and unlocks: it delivers nothing, pushes nothing, and leaves the port, its queue
included, as it was. -/
theorem C15_viewfinder_negotiation_always_fails (nenv : NegotiateEnv) (env : LoopEnv)
    (d : GstDroidCamSrcPad) :
    gst_droidcamsrc_vfsrc_negotiate nenv = false
    ∧ (d.running = true → d.negotiate = some gst_droidcamsrc_vfsrc_negotiate →
        env.check_reconfigure = true →
        gst_droidcamsrc_loop env d
            = (d, [PadCall.mutex_lock, PadCall.check_reconfigure, PadCall.negotiate,
                PadCall.element_error, PadCall.pause_task, PadCall.mutex_unlock])
          ∧ delivered (gst_droidcamsrc_loop env d).2 = []
          ∧ pushes (gst_droidcamsrc_loop env d).2 = []
          ∧ (gst_droidcamsrc_loop env d).1.queue = d.queue) := by
  have hneg : ∀ n : NegotiateEnv, gst_droidcamsrc_vfsrc_negotiate n = false := by
    intro n
    unfold gst_droidcamsrc_vfsrc_negotiate
    cases n.our_caps with
    | none => rfl
    | some our_caps =>
      cases n.peer_caps with
      | none => simp
      | some peer => simp
  refine ⟨hneg nenv, ?_⟩
  intro hr hcb hrc
  have hn : loop_negotiate env d
      = (false, [PadCall.check_reconfigure, PadCall.negotiate]) := by
    simp [loop_negotiate, hrc, hcb, hneg]
  have hloop := loop_negotiation_fails env d hr (by rw [hn])
  rw [hn] at hloop
  rw [hloop]
  exact ⟨rfl, rfl, rfl, rfl⟩

/-- C15 on the active viewfinder port with two buffers queued, a reconfigure pending, and
both the camera's and the peer's caps non-empty. -/
theorem C15_viewfinder_negotiation_example :
    gst_droidcamsrc_vfsrc_negotiate
        { our_caps := some ["video/x-raw"], peer_caps := some ["video/x-raw"] } = false
    ∧ gst_droidcamsrc_loop
        { check_reconfigure := true
          negotiate := { our_caps := some ["video/x-raw"], peer_caps := some ["video/x-raw"] }
          arrivals := []
          deactivated := false } activeViewfinderPort
      = (activeViewfinderPort,
          [PadCall.mutex_lock, PadCall.check_reconfigure, PadCall.negotiate,
            PadCall.element_error, PadCall.pause_task, PadCall.mutex_unlock])
    ∧ activeViewfinderPort.queue = [4, 5] :=
  ⟨(C15_viewfinder_negotiation_always_fails
      { our_caps := some ["video/x-raw"], peer_caps := some ["video/x-raw"] }
      quietLoopEnv activeViewfinderPort).1,
    ((C15_viewfinder_negotiation_always_fails
      { our_caps := some ["video/x-raw"], peer_caps := some ["video/x-raw"] }
      { check_reconfigure := true
        negotiate := { our_caps := some ["video/x-raw"], peer_caps := some ["video/x-raw"] }
        arrivals := []
        deactivated := false } activeViewfinderPort).2 rfl rfl rfl).1,
    rfl⟩

end DroidCamSrc
